import Mathlib

/-!
# MxWindow: pointer-driven move/resize and size negotiation

A shallow embedding of the interaction code of `mx/mx-window.c`.

Conventions of the embedding.

* `gint` values are integers (`Int`).  Signed overflow is undefined in C and is
  not modelled: the values involved are X11 coordinates.
* `guint` values are naturals; `guint` arithmetic is taken modulo `2 ^ 32`.
* `gfloat` values are rationals.  Conversions between the number types are
  modelled, the rounding of an integer to single precision included; the
  rounding of the result of an addition or subtraction of two `gfloat` values
  is not: the values added and subtracted are pixel sizes and coordinates.
* A handler takes the state before the call and returns its return value, the
  state after the call and the calls it made to Clutter and to the X server,
  in the order in which they were made.
* Replies of the X server, of the toolkit and of the child actors are read from
  a `World` record.
-/

namespace MxWindow

/-! ## Number conversions and the glib comparison macros -/

/-- The glib `MAX` macro: `((a) > (b)) ? (a) : (b)`. -/
def MAX {α : Type} [LT α] [DecidableRel (fun (a b : α) => a < b)] (a b : α) : α :=
  if a > b then a else b

/-- The glib `MIN` macro: `((a) < (b)) ? (a) : (b)`. -/
def MIN {α : Type} [LT α] [DecidableRel (fun (a b : α) => a < b)] (a b : α) : α :=
  if a < b then a else b

/-- Smallest value of a `gint`. -/
def G_MININT : Int := -2147483648

/-- Largest value of a `gint`. -/
def G_MAXINT : Int := 2147483647

/-- Whether an integer is a value of the type `gint`. -/
def gint_representable (t : Int) : Prop := G_MININT ≤ t ∧ t ≤ G_MAXINT

instance (t : Int) : Decidable (gint_representable t) := by
  unfold gint_representable; infer_instance

/-- Truncation of a `gfloat` towards zero. -/
def gfloat_trunc (q : ℚ) : Int := Int.tdiv q.num q.den

/-- Conversion of a `gfloat` to `gint`, as done by an assignment: the value is
truncated towards zero.  ISO C leaves the conversion undefined when the
truncated value is not representable; the value taken here in that case is the
one delivered by the x86 conversion instruction, `G_MININT`. -/
def gfloat_to_gint (q : ℚ) : Int :=
  if gint_representable (gfloat_trunc q) then gfloat_trunc q else G_MININT

/-- Conversion of a `gfloat` to `guint` or `unsigned int`, as done by a cast or
by passing the value for an unsigned parameter: the value is truncated towards
zero.  ISO C leaves the conversion undefined when the truncated value is
negative or too large; the value taken here in that case is the one delivered
by the x86-64 conversion, the truncated value modulo `2 ^ 32`. -/
def gfloat_to_guint (q : ℚ) : Nat :=
  ((gfloat_trunc q) % 4294967296).toNat

/-- The multiple of `k` nearest to `n`, the even multiple when two are equally
near. -/
def round_to_multiple (n k : Nat) : Nat :=
  if 2 * (n % k) > k ∨ (2 * (n % k) = k ∧ (n / k) % 2 = 1) then (n / k + 1) * k
  else (n / k) * k

/-- The value a `guint` takes when it is converted to `gfloat`: single
precision holds 24 significant bits, so a value above `2 ^ 24` is rounded to
the nearest multiple of the power of two that its size leaves room for. -/
def guint_round (n : Nat) : Nat :=
  if n ≤ 16777216 then n
  else if n < 33554432 then round_to_multiple n 2
  else if n < 67108864 then round_to_multiple n 4
  else if n < 134217728 then round_to_multiple n 8
  else if n < 268435456 then round_to_multiple n 16
  else if n < 536870912 then round_to_multiple n 32
  else if n < 1073741824 then round_to_multiple n 64
  else if n < 2147483648 then round_to_multiple n 128
  else round_to_multiple n 256

/-- Conversion of a `guint` or `unsigned int` to `gfloat`. -/
def guint_to_gfloat (n : Nat) : ℚ := (guint_round n : ℚ)

/-- Conversion of a `gint` to `gfloat`. -/
def gint_to_gfloat (z : Int) : ℚ :=
  if 0 ≤ z then (guint_round z.toNat : ℚ) else -(guint_round (-z).toNat : ℚ)

/-- The sum `u + i` of a `guint` and a `gint`: the `gint` is converted to
`guint` and the addition is made modulo `2 ^ 32`. -/
def guint_add_gint (u : Nat) (i : Int) : Nat :=
  (((u : Int) + i) % 4294967296).toNat

/-- Modelled from the spec: the button mask of a motion event indicates whether
the primary button is held; `CLUTTER_BUTTON1_MASK` is declared in the headers of
Clutter, which are not part of this repository (it is `1 << 8` there). -/
def CLUTTER_BUTTON1_MASK : Nat := 256

/-! ## Data model -/

/-- The fields of `struct _MxWindowPrivate` used by the interaction code.
Actors (`toolbar`, `child`, `draggable`) are identified by a number,
`resize_grip` is the size of the grip texture when one is loaded. -/
structure MxWindowPrivate where
  has_toolbar : Bool
  is_resizing : Bool
  small_screen : Bool
  has_mapped : Bool
  width_set : Bool
  height_set : Bool
  is_moving : Int
  resize_grip : Option (Nat × Nat)
  last_width : ℚ
  last_height : ℚ
  natural_width : ℚ
  natural_height : ℚ
  toolbar : Option Nat
  child : Option Nat
  drag_x_start : Int
  drag_y_start : Int
  drag_win_x_start : Int
  drag_win_y_start : Int
  drag_width_start : Nat
  drag_height_start : Nat
  draggable : Option Nat
  deriving DecidableEq, Repr

/-- The window together with the state of its collaborators that the handlers
read and write: the fullscreen flag of the stage
(`clutter_stage_get_fullscreen`), the function-static cursor `csoutheast` of
`mx_window_captured_event` (0 until it is created), whether Clutter delivers
motion events to the other actors (`clutter_set_motion_events_enabled`) and the
devices whose pointer is grabbed for the window. -/
structure State where
  priv : MxWindowPrivate
  fullscreen : Bool
  csoutheast : Nat
  motion_events_enabled : Bool
  pointer_grabs : List Int
  deriving DecidableEq, Repr

/-- A call made by the window to Clutter, to the X server or to GObject. -/
inductive Call where
  | clutter_set_motion_events_enabled (enable : Bool)
  | clutter_grab_pointer_for_device (id : Int)
  | clutter_ungrab_pointer_for_device (id : Int)
  | XMoveWindow (x y : Int)
  | XMoveResizeWindow (x y : Int) (width height : Nat)
  | clutter_actor_set_size (width height : ℚ)
  | XCreateFontCursor
  | XDefineCursor (cursor : Nat)
  | XUndefineCursor
  | clutter_actor_hide (actor : Option Nat)
  | clutter_actor_show (actor : Option Nat)
  | clutter_actor_queue_relayout
  | g_object_notify (property : String)
  | mx_window_set_wm_hints
  | clutter_actor_unparent (actor : Nat)
  | clutter_actor_set_parent (actor : Nat)
  | g_signal_emit_by_name (signal : String) (actor : Nat)
  | clutter_actor_allocate (actor : Nat) (x1 y1 x2 y2 : ℚ)
  | clutter_actor_allocate_preferred_size (actor : Nat)
  | XResizeWindow (width height : Nat)
  | clutter_stage_set_minimum_size (width height : Nat)
  deriving DecidableEq, Repr

/-- The reply of `XGetGeometry`.  The handlers never test `status`; when the
request fails the other fields stand for the indeterminate contents of the
variables the reply would have been stored in. -/
structure XGeometry where
  status : Bool
  x : Int
  y : Int
  width : Nat
  height : Nat
  deriving DecidableEq, Repr

/-- The fields of an `XRRModeInfo` that are read. -/
structure XRRModeInfo where
  width : Nat
  height : Nat
  deriving DecidableEq, Repr

/-- The reply of `XRRGetScreenResourcesCurrent`: the array `modes`, whose
length is `nmode`, and what lies in memory just past its last element. -/
structure XRRScreenResources where
  modes : List XRRModeInfo
  past_the_end : XRRModeInfo
  deriving DecidableEq, Repr

/-- The field `nmode` of the screen resources. -/
def XRRScreenResources.nmode (res : XRRScreenResources) : Nat := res.modes.length

/-- The array access `res->modes[i]`. -/
def XRRScreenResources.modes_at (res : XRRScreenResources) (i : Nat) : XRRModeInfo :=
  res.modes.getD i res.past_the_end

/-- What the collaborators answer during one call of a handler. -/
structure World where
  /-- Whether the library is built against Clutter 1.2.0 or later
  (`CLUTTER_CHECK_VERSION(1,2,0)`). -/
  clutter_check_version_1_2_0 : Bool
  /-- Result of `clutter_x11_get_stage_window`; 0 is `None`. -/
  stage_window : Nat
  /-- Reply of `XGetGeometry` for the stage window. -/
  geometry : XGeometry
  /-- Root coordinates in the reply of `XQueryPointer`. -/
  pointer_x : Int
  pointer_y : Int
  /-- Result of `clutter_actor_get_size` for the window. -/
  actor_width : ℚ
  actor_height : ℚ
  /-- Reply of `XRRGetScreenResourcesCurrent`. -/
  screen : XRRScreenResources
  /-- Result (minimum, natural) of `clutter_actor_get_preferred_width` with
  for-height -1, per actor. -/
  preferred_width : Nat → ℚ × ℚ
  /-- Result (minimum, natural) of `clutter_actor_get_preferred_height`, per
  actor and for-width. -/
  preferred_height : Nat → ℚ → ℚ × ℚ
  /-- Result of `XCreateFontCursor`. -/
  font_cursor : Nat
  /-- What the members `button` and `device` of a `ClutterButtonEvent` hold
  when the event in the union is a motion event. -/
  union_button : Nat
  union_device : Int

/-- A `ClutterButtonEvent`; `device` is the result of
`clutter_input_device_get_device_id (event->device)`. -/
structure ClutterButtonEvent where
  x : ℚ
  y : ℚ
  modifier_state : Nat
  button : Nat
  device : Int
  deriving DecidableEq, Repr

/-- A `ClutterMotionEvent`; `device` is the result of
`clutter_input_device_get_device_id (event->device)`. -/
structure ClutterMotionEvent where
  x : ℚ
  y : ℚ
  modifier_state : Nat
  device : Int
  deriving DecidableEq, Repr

/-- A `ClutterEvent`, by the value of `event->type`. -/
inductive ClutterEvent where
  | motion (mevent : ClutterMotionEvent)
  | button_press (bevent : ClutterButtonEvent)
  | button_release (bevent : ClutterButtonEvent)
  | other
  deriving DecidableEq, Repr

/-- Result of a handler: its return value, the state it leaves and the calls
it made. -/
structure Result where
  ret : Bool
  st : State
  calls : List Call
  deriving DecidableEq, Repr

/-! ## The pointer grab service of Clutter -/

/-- Effect of `clutter_grab_pointer_for_device` on the set of grabbed
devices. -/
def grab_pointer (grabs : List Int) (id : Int) : List Int :=
  if id ∈ grabs then grabs else id :: grabs

/-- Effect of `clutter_ungrab_pointer_for_device` on the set of grabbed
devices. -/
def ungrab_pointer (grabs : List Int) (id : Int) : List Int :=
  grabs.filter (fun d => d ≠ id)

/-! ## Size negotiation -/

/-- The four values `mx_window_get_size` computes; each is what the function
stores through the corresponding pointer when the caller passes one. -/
structure WindowSize where
  width : ℚ
  height : ℚ
  pref_width : ℚ
  pref_height : ℚ
  deriving DecidableEq, Repr

/-- The function `mx_window_get_size`. -/
def mx_window_get_size (s : State) (w : World) : WindowSize :=
  let has_border := s.priv.has_toolbar && !(s.priv.small_screen || s.fullscreen)
  let tw : ℚ × ℚ := match s.priv.toolbar with
    | some t => w.preferred_width t
    | none => (0, 0)
  let cw : ℚ × ℚ := match s.priv.child with
    | some c =>
        ((if (w.preferred_width c).1 > tw.1 then (w.preferred_width c).1 else tw.1),
         (if (w.preferred_width c).2 > tw.2 then (w.preferred_width c).2 else tw.2))
    | none => tw
  let width := cw.1
  let pref_width := cw.2
  let th : ℚ × ℚ := match s.priv.toolbar with
    | some t => w.preferred_height t width
    | none => (0, 0)
  let ch : ℚ × ℚ := match s.priv.child with
    | some c => (th.1 + (w.preferred_height c width).1, th.2 + (w.preferred_height c width).2)
    | none => th
  let bh : ℚ × ℚ := if has_border then (ch.1 + 2, ch.2 + 2) else ch
  { width := width + (if has_border then 2 else 0)
    height := bh.1
    pref_width := pref_width + (if has_border then 2 else 0)
    pref_height := bh.2 }

/-! ## Button press and release -/

/-- The handler `mx_window_button_press_event`. -/
def mx_window_button_press_event (s : State) (event : ClutterButtonEvent) (w : World) :
    Result :=
  -- Bail out early in no-toolbar, small-screen or fullscreen mode
  if !s.priv.has_toolbar || s.priv.small_screen || s.fullscreen then
    { ret := false, st := s, calls := [] }
  -- We're already moving/resizing
  else if s.priv.is_moving ≠ -1 then
    { ret := false, st := s, calls := [] }
  -- We only care about the first mouse button
  else if event.button ≠ 1 then
    { ret := false, st := s, calls := [] }
  else
    { ret := true
      st :=
        { s with
          priv :=
            { s.priv with
              is_moving := event.device
              drag_win_x_start := w.geometry.x
              drag_win_y_start := w.geometry.y
              drag_width_start := w.geometry.width
              drag_height_start := w.geometry.height
              drag_x_start := w.pointer_x
              drag_y_start := w.pointer_y }
          motion_events_enabled := false
          pointer_grabs := grab_pointer s.pointer_grabs event.device }
      calls :=
        [Call.clutter_set_motion_events_enabled false,
         Call.clutter_grab_pointer_for_device event.device] }

/-- The function `mx_window_button_release`: the state it leaves and the calls
it made. -/
def mx_window_button_release (s : State) : State × List Call :=
  if s.priv.is_moving ≠ -1 then
    ({ s with
       priv := { s.priv with is_moving := -1 }
       motion_events_enabled := true
       pointer_grabs := ungrab_pointer s.pointer_grabs s.priv.is_moving },
     [Call.clutter_ungrab_pointer_for_device s.priv.is_moving,
      Call.clutter_set_motion_events_enabled true])
  else
    (s, [])

/-- The handler `mx_window_button_release_event`. -/
def mx_window_button_release_event (s : State) (event : ClutterButtonEvent) : Result :=
  if event.device = s.priv.is_moving ∧ event.button = 1 then
    { ret := true
      st := (mx_window_button_release s).1
      calls := (mx_window_button_release s).2 }
  else
    { ret := false, st := s, calls := [] }

/-! ## Hover probe and captured events -/

/-- The view `&event->button` of an event.  For a motion event the members
shared with `ClutterMotionEvent` are those of the event; `button` and `device`
are read from the bytes of the union that lie where a button event has them. -/
def ClutterEvent.button (event : ClutterEvent) (w : World) : ClutterButtonEvent :=
  match event with
  | ClutterEvent.button_press b => b
  | ClutterEvent.button_release b => b
  | ClutterEvent.motion m =>
      { x := m.x, y := m.y, modifier_state := m.modifier_state
        button := w.union_button, device := w.union_device }
  | ClutterEvent.other =>
      { x := 0, y := 0, modifier_state := 0
        button := w.union_button, device := w.union_device }

/-- Width of the grip texture, `cogl_texture_get_width (priv->resize_grip)`:
0 for an invalid handle. -/
def grip_width (p : MxWindowPrivate) : Nat :=
  match p.resize_grip with
  | some g => g.1
  | none => 0

/-- Height of the grip texture, `cogl_texture_get_height (priv->resize_grip)`:
0 for an invalid handle. -/
def grip_height (p : MxWindowPrivate) : Nat :=
  match p.resize_grip with
  | some g => g.2
  | none => 0

/-- The test `x > width - rwidth && y > height - rheight` of
`mx_window_captured_event`, for the stage coordinates of a motion event. -/
def over_resize_grip (s : State) (mevent : ClutterMotionEvent) (w : World) : Bool :=
  decide (gint_to_gfloat (gfloat_to_gint mevent.x) >
    w.actor_width - guint_to_gfloat (grip_width s.priv)) &&
  decide (gint_to_gfloat (gfloat_to_gint mevent.y) >
    w.actor_height - guint_to_gfloat (grip_height s.priv))

/-- The case `CLUTTER_BUTTON_PRESS` of `mx_window_captured_event`, which the
case `CLUTTER_MOTION` falls through to. -/
def captured_button_press (s : State) (event : ClutterEvent) (w : World) : Result :=
  if s.priv.is_resizing then
    mx_window_button_press_event s (event.button w) w
  else
    { ret := false, st := s, calls := [] }

/-- The handler `mx_window_captured_event`. -/
def mx_window_captured_event (s : State) (event : ClutterEvent) (w : World) : Result :=
  match event with
  | ClutterEvent.motion mevent =>
      -- Check if we're over the resize handle
      if s.priv.is_moving = -1 ∧ s.priv.has_toolbar = true ∧ s.priv.small_screen = false ∧
          s.fullscreen = false then
        -- Create the resize cursor
        let created : Bool := s.csoutheast = 0
        let csoutheast : Nat := if created then w.font_cursor else s.csoutheast
        let create : List Call := if created then [Call.XCreateFontCursor] else []
        -- Set the cursor if necessary
        if over_resize_grip s mevent w then
          if !s.priv.is_resizing then
            { ret := true
              st := { s with csoutheast := csoutheast
                             priv := { s.priv with is_resizing := true } }
              calls := create ++ [Call.XDefineCursor csoutheast] }
          else
            { ret := true, st := { s with csoutheast := csoutheast }, calls := create }
        else
          if s.priv.is_resizing then
            { ret := false
              st := { s with csoutheast := csoutheast
                             priv := { s.priv with is_resizing := false } }
              calls := create ++ [Call.XUndefineCursor] }
          else
            { ret := false, st := { s with csoutheast := csoutheast }, calls := create }
      else
        captured_button_press s event w
  | ClutterEvent.button_press _ =>
      -- We want resizing to happen even if there are active widgets
      -- underneath the resize-handle.
      captured_button_press s event w
  | _ => { ret := false, st := s, calls := [] }

/-! ## Pointer motion during a drag -/

/-- The handler `mx_window_motion_event`. -/
def mx_window_motion_event (s : State) (event : ClutterMotionEvent) (w : World) : Result :=
  -- Ignore motion events while in small-screen mode, fullscreen mode,
  -- if we have no toolbar, or if they're not from our grabbed device.
  if s.priv.has_toolbar = false ∨ s.priv.small_screen = true ∨ s.fullscreen = true ∨
      event.device ≠ s.priv.is_moving then
    { ret := false, st := s, calls := [] }
  -- Check if the mouse button is still down
  else if event.modifier_state &&& CLUTTER_BUTTON1_MASK = 0 then
    { ret := true
      st := (mx_window_button_release s).1
      calls := (mx_window_button_release s).2 }
  else
    -- Move/resize the window if we're dragging
    let offsetx : Int := s.priv.drag_x_start
    let offsety : Int := s.priv.drag_y_start
    -- XQueryPointer overwrites x and y
    let x : Int := w.pointer_x
    let y : Int := w.pointer_y
    if s.priv.is_resizing then
      let min_width : ℚ := (mx_window_get_size s w).width
      let min_height : ℚ := (mx_window_get_size s w).height
      let x : Int :=
        gfloat_to_gint
          (MAX (guint_to_gfloat (guint_add_gint s.priv.drag_width_start (x - s.priv.drag_x_start)))
            min_width)
      let y : Int :=
        gfloat_to_gint
          (MAX
            (guint_to_gfloat (guint_add_gint s.priv.drag_height_start (y - s.priv.drag_y_start)))
            min_height)
      let width : ℚ := guint_to_gfloat (w.screen.modes_at w.screen.nmode).width
      let height : ℚ := guint_to_gfloat (w.screen.modes_at w.screen.nmode).height
      let width : ℚ := MIN (gint_to_gfloat x) (width - gint_to_gfloat s.priv.drag_win_x_start)
      let height : ℚ := MIN (gint_to_gfloat y) (height - gint_to_gfloat s.priv.drag_win_y_start)
      if w.clutter_check_version_1_2_0 then
        { ret := true
          st := s
          calls := [Call.clutter_actor_set_size width height] }
      else
        -- Set the natural width/height so ClutterStageX11 won't try to
        -- resize us back to our minimum size.
        { ret := true
          st := { s with priv := { s.priv with natural_width := width
                                               natural_height := height } }
          calls := [Call.XMoveResizeWindow s.priv.drag_win_x_start s.priv.drag_win_y_start
                      (gfloat_to_guint width) (gfloat_to_guint height)] }
    else
      { ret := true
        st := s
        calls := [Call.XMoveWindow (MAX 0 (s.priv.drag_win_x_start + x - offsetx))
                    (MAX 0 (s.priv.drag_win_y_start + y - offsety))] }

/-! ## Display mode changes -/

/-- The callback `mx_window_fullscreen_set_cb`, run when the fullscreen state
of the stage is notified. -/
def mx_window_fullscreen_set_cb (s : State) : State × List Call :=
  -- If we're in small-screen mode, make sure the size gets reset correctly.
  if s.fullscreen = false ∧ s.priv.small_screen = true then
    ({ s with priv := { s.priv with has_mapped := false } },
     [Call.clutter_actor_queue_relayout])
  else
    (s, [Call.clutter_actor_queue_relayout])

/-- The function `mx_window_set_has_toolbar`. -/
def mx_window_set_has_toolbar (s : State) (toolbar : Bool) : State × List Call :=
  if s.priv.has_toolbar ≠ toolbar then
    ({ s with priv := { s.priv with has_toolbar := toolbar } },
     [(if !toolbar then Call.clutter_actor_hide s.priv.toolbar
       else Call.clutter_actor_show s.priv.toolbar),
      Call.clutter_actor_queue_relayout,
      Call.g_object_notify "has-toolbar",
      Call.mx_window_set_wm_hints])
  else
    (s, [])

/-- The part of `mx_window_set_small_screen` guarded by
"In case we were in the middle of a move/resize". -/
def small_screen_end_drag (s : State) : State × List Call :=
  if s.priv.is_moving ≠ -1 then
    let s1 : State :=
      { s with
        priv := { s.priv with is_moving := -1 }
        motion_events_enabled := true
        pointer_grabs := ungrab_pointer s.pointer_grabs s.priv.is_moving }
    let c1 : List Call :=
      [Call.clutter_ungrab_pointer_for_device s.priv.is_moving,
       Call.clutter_set_motion_events_enabled true]
    if s.priv.is_resizing then
      ({ s1 with priv := { s1.priv with is_resizing := false } }, c1 ++ [Call.XUndefineCursor])
    else
      (s1, c1)
  else
    (s, [])

/-- The function `mx_window_set_small_screen`. -/
def mx_window_set_small_screen (s : State) (small_screen : Bool) (w : World) :
    State × List Call :=
  if s.priv.small_screen ≠ small_screen then
    let s0 : State := { s with priv := { s.priv with small_screen := small_screen } }
    -- If there's no window, we're not mapped yet - we'll resize on map.
    if w.stage_window = 0 then
      (s0, [])
    else
      let s1 : State := (small_screen_end_drag s0).1
      let c1 : List Call := (small_screen_end_drag s0).2
      if small_screen then
        if !s1.fullscreen then
          let s2 : State :=
            { s1 with priv := { s1.priv with last_width := w.actor_width
                                             last_height := w.actor_height } }
          let width : Nat := (w.screen.modes_at w.screen.nmode).width
          let height : Nat := (w.screen.modes_at w.screen.nmode).height
          (s2, c1 ++ [Call.XMoveResizeWindow 0 0 width height,
                      Call.g_object_notify "small-screen"])
        else
          (s1, c1 ++ [Call.g_object_notify "small-screen"])
      else
        -- If we started off in small-screen mode, our last size won't
        -- be known, so use the preferred size.
        let s2 : State :=
          if s1.priv.last_width = 0 ∧ s1.priv.last_height = 0 then
            { s1 with priv := { s1.priv with
                                last_width := (mx_window_get_size s1 w).pref_width
                                last_height := (mx_window_get_size s1 w).pref_height } }
          else s1
        (s2, c1 ++ [Call.clutter_actor_set_size s2.priv.last_width s2.priv.last_height,
                    Call.g_object_notify "small-screen"])
  else
    (s, [])

/-- The state of a window after `mx_window_init`, with Clutter delivering
motion events and no pointer grabbed: `is_moving` is -1 and the window has a
toolbar (actor 0); the other fields are zero. -/
def mx_window_init (resize_grip : Option (Nat × Nat)) : State :=
  { priv :=
      { has_toolbar := true, is_resizing := false, small_screen := false
        has_mapped := false, width_set := false, height_set := false
        is_moving := -1
        resize_grip := resize_grip
        last_width := 0, last_height := 0, natural_width := 0, natural_height := 0
        toolbar := some 0, child := none
        drag_x_start := 0, drag_y_start := 0, drag_win_x_start := 0, drag_win_y_start := 0
        drag_width_start := 0, drag_height_start := 0
        draggable := none }
    fullscreen := false
    csoutheast := 0
    motion_events_enabled := true
    pointer_grabs := [] }

/-! ## Event sequences -/

/-- What can happen to a window: an event reaches one of its handlers, one of
its setters is called, or the stage notifies a change of its fullscreen state.
Each input carries the answers the collaborators give while it is handled. -/
inductive Input where
  | button_press (event : ClutterButtonEvent) (w : World)
  | button_release (event : ClutterButtonEvent)
  | motion (event : ClutterMotionEvent) (w : World)
  | captured (event : ClutterEvent) (w : World)
  | set_small_screen (small_screen : Bool) (w : World)
  | set_has_toolbar (toolbar : Bool)
  | fullscreen_changed (fullscreen : Bool)

/-- The state after one input. -/
def step (s : State) (i : Input) : State :=
  match i with
  | Input.button_press event w => (mx_window_button_press_event s event w).st
  | Input.button_release event => (mx_window_button_release_event s event).st
  | Input.motion event w => (mx_window_motion_event s event w).st
  | Input.captured event w => (mx_window_captured_event s event w).st
  | Input.set_small_screen small_screen w => (mx_window_set_small_screen s small_screen w).1
  | Input.set_has_toolbar toolbar => (mx_window_set_has_toolbar s toolbar).1
  | Input.fullscreen_changed fullscreen =>
      (mx_window_fullscreen_set_cb { s with fullscreen := fullscreen }).1

/-- The state after a sequence of inputs. -/
def run (s : State) (inputs : List Input) : State :=
  inputs.foldl step s

/-- A drag session is active. -/
def session_active (s : State) : Prop := s.priv.is_moving ≠ -1

instance (s : State) : Decidable (session_active s) := by
  unfold session_active; infer_instance

/-- The grab pairing: the pointer is grabbed for exactly the device of the
active session, for no device when there is none, and motion events are
disabled exactly while a session is active. -/
def grab_paired (s : State) : Prop :=
  s.pointer_grabs = (if s.priv.is_moving = -1 then [] else [s.priv.is_moving]) ∧
  s.motion_events_enabled = decide (s.priv.is_moving = -1)

instance (s : State) : Decidable (grab_paired s) := by
  unfold grab_paired; infer_instance

/-- The device id carried by an input that can begin a session is not -1. -/
def Input.device_valid (i : Input) : Prop :=
  match i with
  | Input.button_press event _ => event.device ≠ -1
  | Input.captured (ClutterEvent.button_press event) _ => event.device ≠ -1
  | _ => True

/-- The size a list of calls asks the backend to give the window, if any. -/
def requested_size (calls : List Call) : Option (ℚ × ℚ) :=
  calls.findSome? fun c =>
    match c with
    | Call.clutter_actor_set_size width height => some (width, height)
    | Call.XMoveResizeWindow _ _ width height => some ((width : ℚ), (height : ℚ))
    | _ => none

/-- The position a list of calls asks the backend to move the window to, if
any. -/
def requested_position (calls : List Call) : Option (Int × Int) :=
  calls.findSome? fun c =>
    match c with
    | Call.XMoveWindow x y => some (x, y)
    | Call.XMoveResizeWindow x y _ _ => some (x, y)
    | _ => none

/-- A display mode in which dragging is accepted: a toolbar, not small-screen,
not fullscreen. -/
def normal_mode (s : State) : Prop :=
  s.priv.has_toolbar = true ∧ s.priv.small_screen = false ∧ s.fullscreen = false

instance (s : State) : Decidable (normal_mode s) := by
  unfold normal_mode; infer_instance

/-! ## Concrete windows and worlds used in the examples -/

/-- A world with a 100x100 window at (10, 20), the pointer at (105, 115), a
1024x768 screen and actors whose preferred sizes are (50, 60) wide and
(20, 30) high. -/
def example_world : World :=
  { clutter_check_version_1_2_0 := true
    stage_window := 1
    geometry := { status := true, x := 10, y := 20, width := 100, height := 100 }
    pointer_x := 105
    pointer_y := 115
    actor_width := 100
    actor_height := 100
    screen := { modes := [{ width := 1024, height := 768 }]
                past_the_end := { width := 1024, height := 768 } }
    preferred_width := fun _ => (50, 60)
    preferred_height := fun _ _ => (20, 30)
    font_cursor := 7
    union_button := 0
    union_device := 0 }

/-- A freshly initialised window whose grip texture is 10x10. -/
def fresh_window : State := mx_window_init (some (10, 10))

/-- A window in the middle of a move begun by device 2 with the pointer at
(105, 115) and the window at (10, 20), 100x100. -/
def moving_window : State :=
  { fresh_window with
    priv := { fresh_window.priv with
              is_moving := 2
              drag_x_start := 105, drag_y_start := 115
              drag_win_x_start := 10, drag_win_y_start := 20
              drag_width_start := 100, drag_height_start := 100 }
    motion_events_enabled := false
    pointer_grabs := [2] }

/-- A window in the middle of a resize begun by device 2 with the pointer at
(105, 115) and the window at (10, 20), 100x100. -/
def resizing_window : State :=
  { moving_window with priv := { moving_window.priv with is_resizing := true } }

/-- The resize of `resizing_window`, with the window at (1000, 750), near the
bottom right corner of the 1024x768 screen. -/
def cornered_window : State :=
  { resizing_window with
    priv := { resizing_window.priv with drag_win_x_start := 1000, drag_win_y_start := 750 } }

/-! ## The content child -/

/-- The function `mx_window_set_child`; `none` is a NULL actor.  The reference
taken on the old child around its removal is not modelled. -/
def mx_window_set_child (s : State) (actor : Option Nat) : State × List Call :=
  if s.priv.child ≠ actor then
    let r1 : State × List Call :=
      match s.priv.child with
      | some old_child =>
          ({ s with priv := { s.priv with child := none } },
           [Call.clutter_actor_unparent old_child,
            Call.g_signal_emit_by_name "actor-removed" old_child])
      | none => (s, [])
    match actor with
    | some a =>
        ({ r1.1 with priv := { r1.1.priv with child := some a } },
         r1.2 ++ [Call.clutter_actor_set_parent a,
                  Call.g_signal_emit_by_name "actor-added" a])
    | none => r1
  else
    (s, [])

/-- The function `mx_window_get_child`. -/
def mx_window_get_child (s : State) : Option Nat := s.priv.child

/-! ## Vocabulary of the size and hover properties -/

/-- Minimum width a content slot contributes: its measurement, 0 when the slot
is empty. -/
def slot_min_width (w : World) (slot : Option Nat) : ℚ :=
  match slot with
  | some a => (w.preferred_width a).1
  | none => 0

/-- Preferred width a content slot contributes: its measurement, 0 when the
slot is empty. -/
def slot_pref_width (w : World) (slot : Option Nat) : ℚ :=
  match slot with
  | some a => (w.preferred_width a).2
  | none => 0

/-- Minimum height a content slot contributes for a width: its measurement, 0
when the slot is empty. -/
def slot_min_height (w : World) (slot : Option Nat) (for_width : ℚ) : ℚ :=
  match slot with
  | some a => (w.preferred_height a for_width).1
  | none => 0

/-- Preferred height a content slot contributes for a width: its measurement,
0 when the slot is empty. -/
def slot_pref_height (w : World) (slot : Option Nat) (for_width : ℚ) : ℚ :=
  match slot with
  | some a => (w.preferred_height a for_width).2
  | none => 0

/-- The frame border: 2 when the frame is drawn (toolbar, not small-screen, not
fullscreen), 0 otherwise. -/
def frame_border (s : State) : ℚ :=
  if s.priv.has_toolbar = true ∧ s.priv.small_screen = false ∧ s.fullscreen = false then 2
  else 0

/-- The calls of a list that set or clear the cursor of the window. -/
def cursor_calls (calls : List Call) : List Call :=
  calls.filter fun c =>
    match c with
    | Call.XDefineCursor _ => true
    | Call.XUndefineCursor => true
    | _ => false

/-- The cursor `csoutheast` after the hover branch has made sure it exists. -/
def resize_cursor (s : State) (w : World) : Nat :=
  if s.csoutheast = 0 then w.font_cursor else s.csoutheast

/-- The state after a sequence of motion events seen by
`mx_window_captured_event`, each with the answers of its collaborators. -/
def hover_run (s : State) (events : List (ClutterMotionEvent × World)) : State :=
  events.foldl (fun st e => (mx_window_captured_event st (ClutterEvent.motion e.1) e.2).st) s

/-- An input that is an event reaching one of the four event handlers. -/
def Input.is_event (i : Input) : Prop :=
  match i with
  | Input.button_press _ _ => True
  | Input.button_release _ => True
  | Input.motion _ _ => True
  | Input.captured _ _ => True
  | _ => False

/-- A window with a toolbar (actor 0) measuring (40, 60) wide and a child
(actor 1) measuring (100, 80) wide, with the frame drawn. -/
def scenario_window : State :=
  { fresh_window with priv := { fresh_window.priv with child := some 1 } }

/-- The measurements of `scenario_window`: the toolbar is (40, 60) wide and
(20, 30) high, the child (100, 80) wide and (200, 300) high. -/
def scenario_world : World :=
  { example_world with
    preferred_width := fun a => if a = 0 then (40, 60) else (100, 80)
    preferred_height := fun a _ => if a = 0 then (20, 30) else (200, 300) }

/-- The calls of a list that take or release a pointer grab or switch motion
dispatch. -/
def grab_calls (calls : List Call) : List Call :=
  calls.filter fun c =>
    match c with
    | Call.clutter_set_motion_events_enabled _ => true
    | Call.clutter_grab_pointer_for_device _ => true
    | Call.clutter_ungrab_pointer_for_device _ => true
    | _ => false

/-! ## Allocation -/

/-- A `ClutterActorBox`. -/
structure ClutterActorBox where
  x1 : ℚ
  y1 : ℚ
  x2 : ℚ
  y2 : ℚ
  deriving DecidableEq, Repr

/-- The part of `mx_window_allocate` that follows the allocation of the
children and the return taken in fullscreen mode: the first time it sizes the
X window, afterwards (with Clutter 1.2.0 or later) it updates the minimum size
of the stage. -/
def allocate_window_size (s : State) (w : World) : State × List Call :=
  if !s.priv.has_mapped then
    let s1 : State := { s with priv := { s.priv with has_mapped := true } }
    if s1.priv.small_screen then
      (s1, [Call.XMoveResizeWindow 0 0
              (w.screen.modes_at w.screen.nmode).width
              (w.screen.modes_at w.screen.nmode).height])
    else
      -- Set the initial size of the window - if the user has set
      -- a dimension, it will be used, otherwise the preferred size
      -- will be used.
      let width : ℚ :=
        if s1.priv.width_set then s1.priv.natural_width + 2
        else (mx_window_get_size s1 w).pref_width
      let height : ℚ :=
        if s1.priv.height_set then s1.priv.natural_height + 2
        else (mx_window_get_size s1 w).pref_height
      (s1, [Call.XResizeWindow (gfloat_to_guint width) (gfloat_to_guint height)])
  else if w.clutter_check_version_1_2_0 then
    -- Update minimum size
    let width : ℚ :=
      if (mx_window_get_size s w).width < 1 then 1 else (mx_window_get_size s w).width
    let height : ℚ :=
      if (mx_window_get_size s w).height < 1 then 1 else (mx_window_get_size s w).height
    (s, [Call.clutter_stage_set_minimum_size (gfloat_to_guint width) (gfloat_to_guint height)])
  else
    (s, [])

/-- The function `mx_window_allocate`, after the allocate of the parent
class.  `priv->toolbar` is not NULL after `mx_window_init`; an empty toolbar
slot is given the height 0 here. -/
def mx_window_allocate (s : State) (box : ClutterActorBox) (w : World) : State × List Call :=
  let padding : ℚ :=
    if !s.priv.has_toolbar || s.priv.small_screen || s.fullscreen then 0 else 1
  let toolbar_height : ℚ :=
    if s.priv.has_toolbar then slot_pref_height w s.priv.toolbar (box.x2 - box.x1) else 0
  let toolbarbox_y2 : ℚ :=
    if s.priv.has_toolbar then padding + toolbar_height else padding
  let c1 : List Call :=
    if s.priv.has_toolbar then
      match s.priv.toolbar with
      | some t =>
          [Call.clutter_actor_allocate t padding padding ((box.x2 - box.x1) - padding)
            (padding + toolbar_height)]
      | none => []
    else []
  let c2 : List Call :=
    match s.priv.child with
    | some c =>
        [Call.clutter_actor_allocate c padding toolbarbox_y2 ((box.x2 - box.x1) - padding)
          ((box.y2 - box.y1) - padding)]
    | none => []
  let c3 : List Call :=
    match s.priv.draggable with
    | some d => [Call.clutter_actor_allocate_preferred_size d]
    | none => []
  -- Return if we're fullscreen, messing with the window size
  -- in fullscreen mode can cause odd race conditions.
  if s.fullscreen then
    (s, c1 ++ c2 ++ c3)
  else
    ((allocate_window_size s w).1, c1 ++ c2 ++ c3 ++ (allocate_window_size s w).2)

/-! ## The container interface -/

/-- What the GObject type system answers about actors: whether an actor is a
`ClutterClone` and what its source is, and whether an actor is an
`MxDraggable`. -/
structure ActorTypes where
  is_clone : Nat → Bool
  clone_source : Nat → Nat
  is_draggable : Nat → Bool

/-- The function `mx_window_add` of the container interface. -/
def mx_window_add (s : State) (actor : Nat) (types : ActorTypes) : State × List Call :=
  if types.is_clone actor then
    if types.is_draggable (types.clone_source actor) then
      ({ s with priv := { s.priv with draggable := some actor } },
       [Call.clutter_actor_set_parent actor])
    else
      (s, [])
  else if types.is_draggable actor then
    ({ s with priv := { s.priv with draggable := some actor } },
     [Call.clutter_actor_set_parent actor])
  else
    mx_window_set_child s (some actor)

/-- The actor is held by the window: it is the content child or the
draggable. -/
def held_by_window (s : State) (actor : Nat) : Prop :=
  s.priv.child = some actor ∨ s.priv.draggable = some actor

instance (s : State) (actor : Nat) : Decidable (held_by_window s actor) := by
  unfold held_by_window; infer_instance

/-- Actor types in which actor 5 is a clone of actor 6, actor 7 a clone of
actor 8, actor 8 a draggable and no other actor a clone or a draggable. -/
def example_types : ActorTypes :=
  { is_clone := fun a => a = 5 || a = 7
    clone_source := fun a => a + 1
    is_draggable := fun a => a = 8 }

/-- The screen resources with the single mode 1024x768, followed in memory by
what reads as a mode of 30x40. -/
def one_mode_screen : XRRScreenResources :=
  { modes := [{ width := 1024, height := 768 }]
    past_the_end := { width := 30, height := 40 } }

/-- The subscript `res->nmode` with which `mx_window_motion_event`,
`mx_window_allocate` and `mx_window_set_small_screen` read the array
`res->modes`. -/
def screen_size_index (res : XRRScreenResources) : Nat := res.nmode

/-- A window that has not been mapped yet and is in small-screen mode. -/
def small_screen_window : State :=
  { fresh_window with priv := { fresh_window.priv with small_screen := true } }

/-- The screen resources with the single mode 1024x768, followed in memory by
what reads as a mode of 4096x4096. -/
def large_past_the_end_screen : XRRScreenResources :=
  { modes := [{ width := 1024, height := 768 }]
    past_the_end := { width := 4096, height := 4096 } }

/-- A number with its fractional part dropped: rounded down when it is not
negative, up when it is. -/
def truncate_toward_zero (q : ℚ) : Int :=
  if 0 ≤ q then ⌊q⌋ else ⌈q⌉

/-- The grip region in the words of the hover property: a position (x, y) in a
window of the given size with a grip of the given size is inside the region
when x > width - gripWidth and y > height - gripHeight. -/
def pointer_in_grip_region (x y width height : ℚ) (grip_w grip_h : Nat) : Prop :=
  x > width - (grip_w : ℚ) ∧ y > height - (grip_h : ℚ)

instance (x y width height : ℚ) (grip_w grip_h : Nat) :
    Decidable (pointer_in_grip_region x y width height grip_w grip_h) := by
  unfold pointer_in_grip_region; infer_instance

/-- The window `scenario_window` after `mx_window_set_has_toolbar (FALSE)`:
the toolbar actor 0 is hidden, not removed. -/
def hidden_toolbar_window : State :=
  { scenario_window with priv := { scenario_window.priv with has_toolbar := false } }

/-- Measurements in which the toolbar (actor 0) is (140, 160) wide and (20, 30)
high and the child (actor 1) is (100, 80) wide and (200, 300) high. -/
def wide_toolbar_world : World :=
  { example_world with
    preferred_width := fun a => if a = 0 then (140, 160) else (100, 80)
    preferred_height := fun a _ => if a = 0 then (20, 30) else (200, 300) }

/-! ## Conversions of whole numbers to `gfloat` -/

/-- A whole number up to `2 ^ 24` is its own single-precision rounding. -/
theorem guint_round_of_le (n : Nat) (h : n ≤ 16777216) : guint_round n = n := by
  unfold guint_round
  rw [if_pos h]

/-- A `guint` up to `2 ^ 24` converts to `gfloat` without change. -/
theorem guint_to_gfloat_of_le (n : Nat) (h : n ≤ 16777216) : guint_to_gfloat n = (n : ℚ) := by
  unfold guint_to_gfloat
  rw [guint_round_of_le n h]

/-- A `gint` between `-2 ^ 24` and `2 ^ 24` converts to `gfloat` without
change. -/
theorem gint_to_gfloat_of_small (z : Int) (h1 : -16777216 ≤ z) (h2 : z ≤ 16777216) :
    gint_to_gfloat z = (z : ℚ) := by
  unfold gint_to_gfloat
  by_cases h0 : 0 ≤ z
  · rw [if_pos h0, guint_round_of_le _ (by omega)]
    have h3 : ((z.toNat : Int) : ℚ) = (z : ℚ) := by rw [Int.toNat_of_nonneg h0]
    exact_mod_cast h3
  · rw [if_neg h0, guint_round_of_le _ (by omega)]
    have hn : 0 ≤ -z := by omega
    have h3 : (((-z).toNat : Int) : ℚ) = ((-z : Int) : ℚ) := by rw [Int.toNat_of_nonneg hn]
    have h5 : (((-z).toNat : Nat) : ℚ) = -(z : ℚ) := by
      rw [← Int.cast_neg]
      exact_mod_cast h3
    rw [h5, neg_neg]

/-- A `guint` of `2 ^ 32 - 256` or more and below `2 ^ 32 - 128` does not fit
the 24 bits of a `gfloat`: such values convert to the nearest multiple of
256, and `2 ^ 32 - 128` and above convert to `2 ^ 32`. -/
theorem guint_to_gfloat_near_wrap (n : Nat) (h1 : 4294967168 ≤ n) (h2 : n < 4294967296) :
    guint_to_gfloat n = 4294967296 := by
  have h : guint_round n = 4294967296 := by
    have h8 : guint_round n = round_to_multiple n 256 := by
      unfold guint_round
      iterate 8 rw [if_neg (by omega)]
    rw [h8]
    unfold round_to_multiple
    split_ifs <;> omega
  rw [guint_to_gfloat, h]
  norm_num

/-- The value `G_MININT` converts to `gfloat` without change. -/
theorem gint_to_gfloat_G_MININT : gint_to_gfloat (-2147483648) = -2147483648 := by
  have h : guint_round 2147483648 = 2147483648 := by decide
  have h2 : (-(-2147483648 : Int)).toNat = 2147483648 := by decide
  unfold gint_to_gfloat
  rw [if_neg (by decide), h2, h]
  norm_num

/-! ## Basic facts about the grab service -/

theorem ungrab_pointer_singleton (d : Int) : ungrab_pointer [d] d = [] := by
  simp [ungrab_pointer]

theorem grab_pointer_nil (d : Int) : grab_pointer [] d = [d] := by
  simp [grab_pointer]

theorem ungrab_pointer_nil (d : Int) : ungrab_pointer [] d = [] := by
  simp [ungrab_pointer]

/-! ## The grab pairing is kept by every handler -/

theorem grab_paired_button_release (s : State) (h : grab_paired s) :
    grab_paired (mx_window_button_release s).1 := by
  unfold mx_window_button_release
  by_cases hm : s.priv.is_moving = -1
  · simpa [hm] using h
  · obtain ⟨hg, _⟩ := h
    simp only [hm, if_false] at hg
    simp [hm, grab_paired, hg, ungrab_pointer_singleton]

theorem grab_paired_button_press (s : State) (event : ClutterButtonEvent) (w : World)
    (hd : event.device ≠ -1) (h : grab_paired s) :
    grab_paired (mx_window_button_press_event s event w).st := by
  unfold mx_window_button_press_event
  split_ifs with h1 h2 h3
  · exact h
  · exact h
  · exact h
  · obtain ⟨hg, _⟩ := h
    have hm : s.priv.is_moving = -1 := by simpa using h2
    simp only [hm, if_true] at hg
    simp [grab_paired, hd, hg, grab_pointer_nil]

/-- When the window is not in normal mode or a session is active, the press
handler ignores the event whatever it holds. -/
theorem button_press_ignored (s : State) (event : ClutterButtonEvent) (w : World)
    (h : ¬ normal_mode s ∨ s.priv.is_moving ≠ -1 ∨ event.button ≠ 1) :
    mx_window_button_press_event s event w = { ret := false, st := s, calls := [] } := by
  unfold mx_window_button_press_event
  split_ifs with h1 h2 h3
  · rfl
  · rfl
  · rfl
  · exfalso
    rcases h with h | h | h
    · apply h
      simp only [Bool.or_eq_true, Bool.not_eq_true', not_or, Bool.not_eq_true] at h1
      exact ⟨by simpa using h1.1.1, h1.1.2, h1.2⟩
    · exact h2 h
    · exact h3 h

theorem grab_paired_button_release_event (s : State) (event : ClutterButtonEvent)
    (h : grab_paired s) : grab_paired (mx_window_button_release_event s event).st := by
  unfold mx_window_button_release_event
  split_ifs
  · exact grab_paired_button_release s h
  · exact h

theorem grab_paired_motion (s : State) (event : ClutterMotionEvent) (w : World)
    (h : grab_paired s) : grab_paired (mx_window_motion_event s event w).st := by
  unfold mx_window_motion_event
  split_ifs
  · exact h
  · exact grab_paired_button_release s h
  · exact h
  · exact h
  · exact h

theorem grab_paired_captured_button_press (s : State) (event : ClutterEvent) (w : World)
    (hd : (event.button w).device ≠ -1 ∨ ¬ normal_mode s ∨ s.priv.is_moving ≠ -1)
    (h : grab_paired s) : grab_paired (captured_button_press s event w).st := by
  unfold captured_button_press
  split_ifs
  · rcases hd with hd | hd | hd
    · exact grab_paired_button_press s _ w hd h
    · rw [button_press_ignored s _ w (Or.inl hd)]; exact h
    · rw [button_press_ignored s _ w (Or.inr (Or.inl hd))]; exact h
  · exact h

theorem grab_paired_captured (s : State) (event : ClutterEvent) (w : World)
    (hd : (Input.captured event w).device_valid) (h : grab_paired s) :
    grab_paired (mx_window_captured_event s event w).st := by
  cases event with
  | motion mevent =>
      simp only [mx_window_captured_event]
      by_cases hc : s.priv.is_moving = -1 ∧ s.priv.has_toolbar = true ∧
          s.priv.small_screen = false ∧ s.fullscreen = false
      · rw [if_pos hc]
        split_ifs <;> exact h
      · rw [if_neg hc]
        apply grab_paired_captured_button_press s _ w _ h
        by_cases hm : s.priv.is_moving = -1
        · right; left
          intro hn
          exact hc ⟨hm, hn⟩
        · right; right; exact hm
  | button_press bevent =>
      unfold mx_window_captured_event
      exact grab_paired_captured_button_press s _ w (Or.inl hd) h
  | button_release bevent => exact h
  | other => exact h

theorem grab_paired_small_screen_end_drag (s : State) (h : grab_paired s) :
    grab_paired (small_screen_end_drag s).1 := by
  unfold small_screen_end_drag
  by_cases hm : s.priv.is_moving = -1
  · simpa [hm] using h
  · obtain ⟨hg, _⟩ := h
    simp only [hm, if_false] at hg
    by_cases hr : s.priv.is_resizing = true <;>
      simp [hm, hr, grab_paired, hg, ungrab_pointer_singleton]

theorem grab_paired_set_small_screen (s : State) (small_screen : Bool) (w : World)
    (h : grab_paired s) : grab_paired (mx_window_set_small_screen s small_screen w).1 := by
  have h0 : grab_paired { s with priv := { s.priv with small_screen := small_screen } } := h
  have h1 := grab_paired_small_screen_end_drag _ h0
  unfold mx_window_set_small_screen
  dsimp only
  split_ifs <;> first | exact h | exact h0 | exact h1

theorem grab_paired_set_has_toolbar (s : State) (toolbar : Bool) (h : grab_paired s) :
    grab_paired (mx_window_set_has_toolbar s toolbar).1 := by
  unfold mx_window_set_has_toolbar
  split_ifs <;> exact h

theorem grab_paired_fullscreen_set_cb (s : State) (h : grab_paired s) :
    grab_paired (mx_window_fullscreen_set_cb s).1 := by
  unfold mx_window_fullscreen_set_cb
  split_ifs <;> exact h

theorem grab_paired_step (s : State) (i : Input) (hd : i.device_valid) (h : grab_paired s) :
    grab_paired (step s i) := by
  cases i with
  | button_press event w => exact grab_paired_button_press s event w hd h
  | button_release event => exact grab_paired_button_release_event s event h
  | motion event w => exact grab_paired_motion s event w h
  | captured event w => exact grab_paired_captured s event w hd h
  | set_small_screen small_screen w => exact grab_paired_set_small_screen s small_screen w h
  | set_has_toolbar toolbar => exact grab_paired_set_has_toolbar s toolbar h
  | fullscreen_changed fullscreen =>
      exact grab_paired_fullscreen_set_cb { s with fullscreen := fullscreen } h

theorem grab_paired_run (inputs : List Input) (s : State)
    (hd : ∀ i ∈ inputs, i.device_valid) (h : grab_paired s) :
    grab_paired (run s inputs) := by
  induction inputs generalizing s with
  | nil => exact h
  | cons i rest ih =>
      have hi : i.device_valid := hd i (List.mem_cons_self i rest)
      have hrest : ∀ j ∈ rest, j.device_valid := fun j hj => hd j (List.mem_cons_of_mem i hj)
      exact ih (step s i) hrest (grab_paired_step s i hi h)

theorem grab_paired_init (resize_grip : Option (Nat × Nat)) :
    grab_paired (mx_window_init resize_grip) := by
  simp [grab_paired, mx_window_init]

/-- With device ids other than -1 on the presses, the grab pairing holds in
every state reachable from a freshly initialised window: the pointer is
grabbed for device `d` exactly when a session is active with `is_moving = d`,
and motion dispatch is disabled exactly when a session is active. -/
theorem grab_pairing_of_valid_devices (resize_grip : Option (Nat × Nat))
    (inputs : List Input) (hd : ∀ i ∈ inputs, i.device_valid) :
    (∀ d : Int, d ∈ (run (mx_window_init resize_grip) inputs).pointer_grabs ↔
      (session_active (run (mx_window_init resize_grip) inputs) ∧
        (run (mx_window_init resize_grip) inputs).priv.is_moving = d)) ∧
    ((run (mx_window_init resize_grip) inputs).motion_events_enabled = false ↔
      session_active (run (mx_window_init resize_grip) inputs)) := by
  obtain ⟨hg, hm⟩ := grab_paired_run inputs _ hd (grab_paired_init resize_grip)
  unfold session_active
  constructor
  · intro d
    rw [hg]
    by_cases hs : (run (mx_window_init resize_grip) inputs).priv.is_moving = -1
    · simp [hs]
    · simp [hs, eq_comm]
  · rw [hm]
    simp

/-! ## C1: grab pairing -/

/-- C1 (defect in the code): the grab pairing is broken by a press whose device
id is -1.  On a freshly initialised window such a press is accepted: the
pointer is grabbed for device -1 and motion dispatch is disabled, while
`is_moving` is -1, the value that means no session; a later release by the same
device with button 1 returns TRUE and releases nothing. -/
theorem grab_held_without_session_after_press_of_device_minus_one :
    (run fresh_window
      [Input.button_press { x := 5, y := 5, modifier_state := 0, button := 1, device := -1 }
        example_world]).priv.is_moving = -1 ∧
    (run fresh_window
      [Input.button_press { x := 5, y := 5, modifier_state := 0, button := 1, device := -1 }
        example_world]).pointer_grabs = [-1] ∧
    (run fresh_window
      [Input.button_press { x := 5, y := 5, modifier_state := 0, button := 1, device := -1 }
        example_world]).motion_events_enabled = false ∧
    (run fresh_window
      [Input.button_press { x := 5, y := 5, modifier_state := 0, button := 1, device := -1 }
        example_world,
       Input.button_release { x := 5, y := 5, modifier_state := 0, button := 1, device := -1 }]
      ).pointer_grabs = [-1] ∧
    (run fresh_window
      [Input.button_press { x := 5, y := 5, modifier_state := 0, button := 1, device := -1 }
        example_world,
       Input.button_release { x := 5, y := 5, modifier_state := 0, button := 1, device := -1 }]
      ).motion_events_enabled = false := by
  refine ⟨?_, ?_, ?_, ?_, ?_⟩ <;> decide

/-! ## C2: presses that are ignored -/

/-- C2: `mx_window_button_press_event` ignores the press when the window has no
toolbar, is in small-screen mode or fullscreen, when a session is already
active, or when the button is not button 1: it returns FALSE, makes no call
(so no grab and no change of motion dispatch) and leaves the whole state, the
drag fields included, unchanged. -/
theorem button_press_ignored_when_disallowed (s : State) (event : ClutterButtonEvent)
    (w : World)
    (h : s.priv.has_toolbar = false ∨ s.priv.small_screen = true ∨ s.fullscreen = true ∨
      s.priv.is_moving ≠ -1 ∨ event.button ≠ 1) :
    (mx_window_button_press_event s event w).ret = false ∧
    (mx_window_button_press_event s event w).calls = [] ∧
    (mx_window_button_press_event s event w).st = s ∧
    (mx_window_button_press_event s event w).st.priv.is_moving = s.priv.is_moving ∧
    (mx_window_button_press_event s event w).st.priv.drag_x_start = s.priv.drag_x_start ∧
    (mx_window_button_press_event s event w).st.priv.drag_y_start = s.priv.drag_y_start ∧
    (mx_window_button_press_event s event w).st.priv.drag_win_x_start =
      s.priv.drag_win_x_start ∧
    (mx_window_button_press_event s event w).st.priv.drag_win_y_start =
      s.priv.drag_win_y_start ∧
    (mx_window_button_press_event s event w).st.priv.drag_width_start =
      s.priv.drag_width_start ∧
    (mx_window_button_press_event s event w).st.priv.drag_height_start =
      s.priv.drag_height_start ∧
    (mx_window_button_press_event s event w).st.pointer_grabs = s.pointer_grabs ∧
    (mx_window_button_press_event s event w).st.motion_events_enabled =
      s.motion_events_enabled := by
  have hi : ¬ normal_mode s ∨ s.priv.is_moving ≠ -1 ∨ event.button ≠ 1 := by
    rcases h with h | h | h | h | h
    · left; intro hn; rw [hn.1] at h; exact Bool.noConfusion h
    · left; intro hn; rw [hn.2.1] at h; exact Bool.noConfusion h
    · left; intro hn; rw [hn.2.2] at h; exact Bool.noConfusion h
    · right; left; exact h
    · right; right; exact h
  rw [button_press_ignored s event w hi]
  simp

/-- A second press by another device during the move of `moving_window` is
ignored. -/
theorem button_press_ignored_when_disallowed_witness :
    moving_window.priv.is_moving ≠ -1 ∧
    (mx_window_button_press_event moving_window
      { x := 5, y := 5, modifier_state := 0, button := 1, device := 3 } example_world).st =
      moving_window :=
  ⟨by decide,
   (button_press_ignored_when_disallowed moving_window
      { x := 5, y := 5, modifier_state := 0, button := 1, device := 3 } example_world
      (Or.inr (Or.inr (Or.inr (Or.inl (by decide)))))).2.2.1⟩

/-! ## C3: which gesture a press begins -/

/-- An accepted press: what `mx_window_button_press_event` returns in normal
mode, with no session and button 1. -/
theorem button_press_accepted (s : State) (event : ClutterButtonEvent) (w : World)
    (hn : normal_mode s) (hm : s.priv.is_moving = -1) (hb : event.button = 1) :
    mx_window_button_press_event s event w =
      { ret := true
        st :=
          { s with
            priv :=
              { s.priv with
                is_moving := event.device
                drag_win_x_start := w.geometry.x
                drag_win_y_start := w.geometry.y
                drag_width_start := w.geometry.width
                drag_height_start := w.geometry.height
                drag_x_start := w.pointer_x
                drag_y_start := w.pointer_y }
            motion_events_enabled := false
            pointer_grabs := grab_pointer s.pointer_grabs event.device }
        calls :=
          [Call.clutter_set_motion_events_enabled false,
           Call.clutter_grab_pointer_for_device event.device] } := by
  obtain ⟨h1, h2, h3⟩ := hn
  unfold mx_window_button_press_event
  simp [h1, h2, h3, hm, hb]

/-- A button press seen by `mx_window_captured_event` is handed to
`mx_window_button_press_event` exactly when `is_resizing` is set. -/
theorem captured_button_press_event (s : State) (event : ClutterButtonEvent) (w : World) :
    mx_window_captured_event s (ClutterEvent.button_press event) w =
      if s.priv.is_resizing = true then mx_window_button_press_event s event w
      else { ret := false, st := s, calls := [] } := rfl

/-- A hover probe: what `mx_window_captured_event` does with a motion event in
normal mode when no session is active. -/
theorem hover_probe (s : State) (mevent : ClutterMotionEvent) (w : World)
    (hn : normal_mode s) (hm : s.priv.is_moving = -1) :
    (mx_window_captured_event s (ClutterEvent.motion mevent) w).st.priv =
      { s.priv with is_resizing := over_resize_grip s mevent w } ∧
    (mx_window_captured_event s (ClutterEvent.motion mevent) w).st.fullscreen = s.fullscreen ∧
    (mx_window_captured_event s (ClutterEvent.motion mevent) w).st.pointer_grabs =
      s.pointer_grabs ∧
    (mx_window_captured_event s (ClutterEvent.motion mevent) w).st.motion_events_enabled =
      s.motion_events_enabled ∧
    (mx_window_captured_event s (ClutterEvent.motion mevent) w).ret =
      over_resize_grip s mevent w := by
  obtain ⟨h1, h2, h3⟩ := hn
  have hc : s.priv.is_moving = -1 ∧ s.priv.has_toolbar = true ∧
      s.priv.small_screen = false ∧ s.fullscreen = false := ⟨hm, h1, h2, h3⟩
  simp only [mx_window_captured_event]
  rw [if_pos hc]
  by_cases hg : over_resize_grip s mevent w = true
  · by_cases hr : s.priv.is_resizing = true
    · simp [hg, hr]
      cases hp : s.priv
      rw [hp] at hr
      simp at hr
      simp [hr]
    · simp [hg, hr]
  · by_cases hr : s.priv.is_resizing = true
    · simp [hg, hr]
    · simp [hg, hr]
      simp only [Bool.not_eq_true] at hg hr
      cases hp : s.priv
      rw [hp] at hr
      simp at hr
      simp [hr, hg]

/-- C4: a press with button 1 in normal mode (toolbar, not small-screen, not
fullscreen) with no active session returns TRUE and creates a complete
session: `is_moving` is the device id of the event, the window start fields
hold the geometry answered by `XGetGeometry`, the pointer start fields hold the
position answered by `XQueryPointer`, motion dispatch is disabled, and the
only grab call is the one for that device, which is then grabbed and is the
only device newly grabbed. -/
theorem accepted_press_creates_session (s : State) (event : ClutterButtonEvent) (w : World)
    (hn : normal_mode s) (hm : s.priv.is_moving = -1) (hb : event.button = 1) :
    (mx_window_button_press_event s event w).ret = true ∧
    (mx_window_button_press_event s event w).st.priv.is_moving = event.device ∧
    (mx_window_button_press_event s event w).st.priv.drag_win_x_start = w.geometry.x ∧
    (mx_window_button_press_event s event w).st.priv.drag_win_y_start = w.geometry.y ∧
    (mx_window_button_press_event s event w).st.priv.drag_width_start = w.geometry.width ∧
    (mx_window_button_press_event s event w).st.priv.drag_height_start = w.geometry.height ∧
    (mx_window_button_press_event s event w).st.priv.drag_x_start = w.pointer_x ∧
    (mx_window_button_press_event s event w).st.priv.drag_y_start = w.pointer_y ∧
    (mx_window_button_press_event s event w).st.motion_events_enabled = false ∧
    (mx_window_button_press_event s event w).calls =
      [Call.clutter_set_motion_events_enabled false,
       Call.clutter_grab_pointer_for_device event.device] ∧
    event.device ∈ (mx_window_button_press_event s event w).st.pointer_grabs ∧
    (∀ d, d ∈ (mx_window_button_press_event s event w).st.pointer_grabs →
      d = event.device ∨ d ∈ s.pointer_grabs) := by
  rw [button_press_accepted s event w hn hm hb]
  refine ⟨rfl, rfl, rfl, rfl, rfl, rfl, rfl, rfl, rfl, rfl, ?_, ?_⟩
  · show event.device ∈ grab_pointer s.pointer_grabs event.device
    unfold grab_pointer
    split_ifs with h
    · exact h
    · exact List.mem_cons_self _ _
  · intro d hd
    change d ∈ grab_pointer s.pointer_grabs event.device at hd
    unfold grab_pointer at hd
    split_ifs at hd with h
    · exact Or.inr hd
    · rcases List.mem_cons.mp hd with h1 | h1
      · exact Or.inl h1
      · exact Or.inr h1

/-- A press by device 2 on the fresh window begins a session of device 2 that
starts from the window at (10, 20) and the pointer at (105, 115). -/
theorem accepted_press_creates_session_witness :
    normal_mode fresh_window ∧ fresh_window.priv.is_moving = -1 ∧
    (mx_window_button_press_event fresh_window
      { x := 5, y := 5, modifier_state := 0, button := 1, device := 2 }
      example_world).st.priv.is_moving = 2 ∧
    (mx_window_button_press_event fresh_window
      { x := 5, y := 5, modifier_state := 0, button := 1, device := 2 }
      example_world).st.priv.drag_win_x_start = 10 ∧
    (mx_window_button_press_event fresh_window
      { x := 5, y := 5, modifier_state := 0, button := 1, device := 2 }
      example_world).st.priv.drag_x_start = 105 :=
  ⟨by decide, by decide,
   (accepted_press_creates_session fresh_window
      { x := 5, y := 5, modifier_state := 0, button := 1, device := 2 }
      example_world (by decide) (by decide) rfl).2.1,
   (accepted_press_creates_session fresh_window
      { x := 5, y := 5, modifier_state := 0, button := 1, device := 2 }
      example_world (by decide) (by decide) rfl).2.2.1,
   (accepted_press_creates_session fresh_window
      { x := 5, y := 5, modifier_state := 0, button := 1, device := 2 }
      example_world (by decide) (by decide) rfl).2.2.2.2.2.2.1⟩

/-! ## C5: motion events that are ignored -/

/-- What `mx_window_motion_event` ignores: an event is ignored, with FALSE
returned, no call made and the state unchanged, when the window is not in
normal mode or the device id of the event differs from `is_moving`; the second
covers every event whose device id is not -1 while no session is active. -/
theorem motion_ignored (s : State) (event : ClutterMotionEvent) (w : World)
    (h : ¬ normal_mode s ∨ event.device ≠ s.priv.is_moving) :
    mx_window_motion_event s event w = { ret := false, st := s, calls := [] } := by
  unfold mx_window_motion_event
  have hc : s.priv.has_toolbar = false ∨ s.priv.small_screen = true ∨ s.fullscreen = true ∨
      event.device ≠ s.priv.is_moving := by
    rcases h with h | h
    · by_contra hcon
      apply h
      simp only [not_or, Bool.not_eq_false, Bool.not_eq_true] at hcon
      exact ⟨hcon.1, hcon.2.1, hcon.2.2.1⟩
    · exact Or.inr (Or.inr (Or.inr h))
  rw [if_pos hc]

/-- C5 (defect in the code): a motion event is not ignored when no session is
active and its device id is -1, the value `is_moving` has when there is no
session.  On a freshly initialised window such an event with button 1 held
returns TRUE and moves the window to the pointer position; with button 1 not
held it returns TRUE as well. -/
theorem motion_of_device_minus_one_moves_window_without_session :
    ¬ session_active fresh_window ∧
    mx_window_motion_event fresh_window
      { x := 5, y := 5, modifier_state := 256, device := -1 } example_world =
      { ret := true, st := fresh_window, calls := [Call.XMoveWindow 105 115] } ∧
    (mx_window_motion_event fresh_window
      { x := 5, y := 5, modifier_state := 0, device := -1 } example_world).ret = true := by
  refine ⟨by decide, ?_, by decide⟩
  rfl

/-! ## C6: implicit release -/

/-- The guard of `mx_window_motion_event` passes in normal mode for an event of
the device in `is_moving`. -/
theorem motion_guard_passes (s : State) (event : ClutterMotionEvent)
    (hn : normal_mode s) (hd : event.device = s.priv.is_moving) :
    ¬ (s.priv.has_toolbar = false ∨ s.priv.small_screen = true ∨ s.fullscreen = true ∨
      event.device ≠ s.priv.is_moving) := by
  obtain ⟨h1, h2, h3⟩ := hn
  simp [h1, h2, h3, hd]

/-- C6: during an active session (move or resize) in normal mode, a motion
event of the session's device whose modifier state lacks the button-1 mask
ends the session: `is_moving` becomes -1, the calls made are one ungrab of the
session's device followed by the re-enabling of motion dispatch and nothing
else, so no move and no resize is requested; afterwards motion dispatch is
enabled and the device is no longer grabbed. -/
theorem implicit_release_ends_session (s : State) (event : ClutterMotionEvent) (w : World)
    (hn : normal_mode s) (hs : session_active s) (hd : event.device = s.priv.is_moving)
    (hb : event.modifier_state &&& CLUTTER_BUTTON1_MASK = 0) :
    (mx_window_motion_event s event w).st.priv.is_moving = -1 ∧
    (mx_window_motion_event s event w).calls =
      [Call.clutter_ungrab_pointer_for_device s.priv.is_moving,
       Call.clutter_set_motion_events_enabled true] ∧
    (mx_window_motion_event s event w).st.motion_events_enabled = true ∧
    s.priv.is_moving ∉ (mx_window_motion_event s event w).st.pointer_grabs ∧
    requested_position (mx_window_motion_event s event w).calls = none ∧
    requested_size (mx_window_motion_event s event w).calls = none ∧
    (mx_window_motion_event s event w).st.priv.is_resizing = s.priv.is_resizing := by
  have hm : s.priv.is_moving ≠ -1 := hs
  unfold mx_window_motion_event
  rw [if_neg (motion_guard_passes s event hn hd), if_pos hb]
  unfold mx_window_button_release
  rw [if_pos hm]
  refine ⟨rfl, rfl, rfl, ?_, rfl, rfl, rfl⟩
  show s.priv.is_moving ∉ ungrab_pointer s.pointer_grabs s.priv.is_moving
  simp [ungrab_pointer]

/-- A motion event of device 2 without button 1 ends the move of
`moving_window`. -/
theorem implicit_release_ends_session_witness :
    normal_mode moving_window ∧ session_active moving_window ∧
    (mx_window_motion_event moving_window
      { x := 50, y := 50, modifier_state := 0, device := 2 } example_world).st.priv.is_moving
      = -1 :=
  ⟨by decide, by decide,
   (implicit_release_ends_session moving_window
      { x := 50, y := 50, modifier_state := 0, device := 2 } example_world
      (by decide) (by decide) rfl (by decide)).1⟩

/-! ## C7: move arithmetic -/

/-- The macro `MAX (0, a)` on `gint` is the maximum of 0 and `a`. -/
theorem MAX_zero_eq_max (a : Int) : MAX 0 a = max 0 a := by
  unfold MAX
  split_ifs with h
  · exact (max_eq_left (le_of_lt h)).symm
  · exact (max_eq_right (not_lt.mp h)).symm

/-- C7: during an active move (`is_resizing` false), a motion event of the
session's device with button 1 held in normal mode returns TRUE, leaves the
state unchanged and makes exactly one call, `XMoveWindow`, to the position
(max (0, drag_win_x_start + px - drag_x_start),
max (0, drag_win_y_start + py - drag_y_start)) for the pointer position
(px, py) answered by `XQueryPointer`; both coordinates are non-negative and no
resize is requested. -/
theorem move_arithmetic (s : State) (event : ClutterMotionEvent) (w : World)
    (hn : normal_mode s) (hs : session_active s) (hd : event.device = s.priv.is_moving)
    (hb : event.modifier_state &&& CLUTTER_BUTTON1_MASK ≠ 0)
    (hr : s.priv.is_resizing = false) :
    mx_window_motion_event s event w =
      { ret := true
        st := s
        calls :=
          [Call.XMoveWindow
            (max 0 (s.priv.drag_win_x_start + w.pointer_x - s.priv.drag_x_start))
            (max 0 (s.priv.drag_win_y_start + w.pointer_y - s.priv.drag_y_start))] } ∧
    requested_position (mx_window_motion_event s event w).calls =
      some (max 0 (s.priv.drag_win_x_start + w.pointer_x - s.priv.drag_x_start),
            max 0 (s.priv.drag_win_y_start + w.pointer_y - s.priv.drag_y_start)) ∧
    0 ≤ max 0 (s.priv.drag_win_x_start + w.pointer_x - s.priv.drag_x_start) ∧
    0 ≤ max 0 (s.priv.drag_win_y_start + w.pointer_y - s.priv.drag_y_start) ∧
    requested_size (mx_window_motion_event s event w).calls = none ∧
    session_active (mx_window_motion_event s event w).st := by
  have he : mx_window_motion_event s event w =
      { ret := true
        st := s
        calls :=
          [Call.XMoveWindow
            (max 0 (s.priv.drag_win_x_start + w.pointer_x - s.priv.drag_x_start))
            (max 0 (s.priv.drag_win_y_start + w.pointer_y - s.priv.drag_y_start))] } := by
    unfold mx_window_motion_event
    rw [if_neg (motion_guard_passes s event hn hd), if_neg hb]
    simp only [hr, Bool.false_eq_true, if_false, MAX_zero_eq_max]
  rw [he]
  exact ⟨rfl, rfl, le_max_left _ _, le_max_left _ _, rfl, hs⟩

/-- Dragging `moving_window` with the pointer at (5, 215) asks for the position
(0, 120): the horizontal coordinate 10 + 5 - 105 is clamped to 0. -/
theorem move_arithmetic_witness :
    normal_mode moving_window ∧ session_active moving_window ∧
    requested_position
      (mx_window_motion_event moving_window
        { x := 50, y := 50, modifier_state := 256, device := 2 }
        { example_world with pointer_x := 5, pointer_y := 215 }).calls = some (0, 120) :=
  ⟨by decide, by decide,
   (move_arithmetic moving_window
      { x := 50, y := 50, modifier_state := 256, device := 2 }
      { example_world with pointer_x := 5, pointer_y := 215 }
      (by decide) (by decide) rfl (by decide) rfl).2.1⟩

/-! ## C8 and C9: resize arithmetic -/

/-- Truncation of a non-negative `gfloat` rounds down. -/
theorem gfloat_trunc_of_nonneg (q : ℚ) (h : 0 ≤ q) : gfloat_trunc q = ⌊q⌋ := by
  unfold gfloat_trunc
  rw [Int.tdiv_eq_ediv (Rat.num_nonneg.mpr h) (Int.natCast_nonneg _)]
  exact Rat.floor_def.symm

/-- A whole number that is not negative is its own truncation. -/
theorem gfloat_trunc_natCast (n : Nat) : gfloat_trunc (n : ℚ) = (n : Int) := by
  rw [gfloat_trunc_of_nonneg _ (Nat.cast_nonneg n)]
  exact Int.floor_natCast n

/-- The sum of a `guint` and a `gint` is the sum of the integers when that sum
is a value of `guint`. -/
theorem guint_add_gint_of_range (u : Nat) (i : Int) (h0 : 0 ≤ (u : Int) + i)
    (h1 : (u : Int) + i < 4294967296) : ((guint_add_gint u i : Nat) : Int) = (u : Int) + i := by
  unfold guint_add_gint
  rw [Int.emod_eq_of_lt h0 h1]
  exact Int.toNat_of_nonneg h0

/-- The macro `MIN (x, cap)` never exceeds `cap`. -/
theorem MIN_le_right (x cap : ℚ) : MIN x cap ≤ cap := by
  unfold MIN
  split_ifs with h
  · exact le_of_lt h
  · exact le_refl cap

/-- The size requested by `mx_window_motion_event` during a resize, for an
event of the session's device with button 1 held in normal mode, in a build
against Clutter 1.2.0 or later, where it is handed to
`clutter_actor_set_size`. -/
theorem motion_resize_requested_size (s : State) (event : ClutterMotionEvent) (w : World)
    (hn : normal_mode s) (hd : event.device = s.priv.is_moving)
    (hb : event.modifier_state &&& CLUTTER_BUTTON1_MASK ≠ 0)
    (hr : s.priv.is_resizing = true) (h12 : w.clutter_check_version_1_2_0 = true) :
    requested_size (mx_window_motion_event s event w).calls =
      some
        (MIN
          (gint_to_gfloat (gfloat_to_gint
            (MAX (guint_to_gfloat (guint_add_gint s.priv.drag_width_start
                    (w.pointer_x - s.priv.drag_x_start)))
              (mx_window_get_size s w).width)))
          (guint_to_gfloat (w.screen.modes_at w.screen.nmode).width -
            gint_to_gfloat s.priv.drag_win_x_start),
         MIN
          (gint_to_gfloat (gfloat_to_gint
            (MAX (guint_to_gfloat (guint_add_gint s.priv.drag_height_start
                    (w.pointer_y - s.priv.drag_y_start)))
              (mx_window_get_size s w).height)))
          (guint_to_gfloat (w.screen.modes_at w.screen.nmode).height -
            gint_to_gfloat s.priv.drag_win_y_start)) := by
  unfold mx_window_motion_event
  rw [if_neg (motion_guard_passes s event hn hd), if_neg hb]
  simp only [hr, h12, if_true]
  rfl

/-- The size requested by `mx_window_motion_event` during a resize in a build
against a Clutter older than 1.2.0: the width and height computed are
converted to `unsigned int` for `XMoveResizeWindow`. -/
theorem motion_resize_requested_size_before_1_2 (s : State) (event : ClutterMotionEvent)
    (w : World)
    (hn : normal_mode s) (hd : event.device = s.priv.is_moving)
    (hb : event.modifier_state &&& CLUTTER_BUTTON1_MASK ≠ 0)
    (hr : s.priv.is_resizing = true) (h12 : w.clutter_check_version_1_2_0 = false) :
    requested_size (mx_window_motion_event s event w).calls =
      some
        (((gfloat_to_guint
          (MIN
            (gint_to_gfloat (gfloat_to_gint
              (MAX (guint_to_gfloat (guint_add_gint s.priv.drag_width_start
                      (w.pointer_x - s.priv.drag_x_start)))
                (mx_window_get_size s w).width)))
            (guint_to_gfloat (w.screen.modes_at w.screen.nmode).width -
              gint_to_gfloat s.priv.drag_win_x_start)) : Nat) : ℚ),
         ((gfloat_to_guint
          (MIN
            (gint_to_gfloat (gfloat_to_gint
              (MAX (guint_to_gfloat (guint_add_gint s.priv.drag_height_start
                      (w.pointer_y - s.priv.drag_y_start)))
                (mx_window_get_size s w).height)))
            (guint_to_gfloat (w.screen.modes_at w.screen.nmode).height -
              gint_to_gfloat s.priv.drag_win_y_start)) : Nat) : ℚ)) := by
  unfold mx_window_motion_event
  rw [if_neg (motion_guard_passes s event hn hd), if_neg hb]
  simp only [hr, h12, if_true]
  rfl

/-- The minimum size of `resizing_window` in `example_world` is 52x22. -/
theorem resizing_window_minimum_size (px py : Int) :
    (mx_window_get_size resizing_window
      { example_world with pointer_x := px, pointer_y := py }).width = 52 ∧
    (mx_window_get_size resizing_window
      { example_world with pointer_x := px, pointer_y := py }).height = 22 := by
  constructor <;>
    norm_num [mx_window_get_size, resizing_window, moving_window, fresh_window,
      mx_window_init, example_world]

/-- C8 (defect in the code): the resize arithmetic is not
min (max (start + delta, minimum), screen - offset) when start + delta is
negative.  For `resizing_window` (start 100x100, pointer start (105, 115),
window at (10, 20), minimum 52x22, screen 1024x768) and the pointer at (0, 0),
start + delta is (-5, -15); the sum is made in `guint` and is
(4294967291, 4294967281), which `MAX` prefers to the minimum and which is not
a value of `gint`; the size requested is (G_MININT, G_MININT), where the
formula gives (52, 22). -/
theorem resize_wraps_when_candidate_negative :
    (resizing_window.priv.drag_width_start : Int) +
      (0 - resizing_window.priv.drag_x_start) = -5 ∧
    (resizing_window.priv.drag_height_start : Int) +
      (0 - resizing_window.priv.drag_y_start) = -15 ∧
    guint_add_gint resizing_window.priv.drag_width_start
      (0 - resizing_window.priv.drag_x_start) = 4294967291 ∧
    guint_add_gint resizing_window.priv.drag_height_start
      (0 - resizing_window.priv.drag_y_start) = 4294967281 ∧
    ¬ gint_representable 4294967291 ∧ ¬ gint_representable 4294967281 ∧
    requested_size
      (mx_window_motion_event resizing_window
        { x := 50, y := 50, modifier_state := 256, device := 2 }
        { example_world with pointer_x := 0, pointer_y := 0 }).calls =
      some (-2147483648, -2147483648) ∧
    (min (max ((-5 : Int) : ℚ)
        (mx_window_get_size resizing_window
          { example_world with pointer_x := 0, pointer_y := 0 }).width) (1024 - 10),
     min (max ((-15 : Int) : ℚ)
        (mx_window_get_size resizing_window
          { example_world with pointer_x := 0, pointer_y := 0 }).height) (768 - 20)) =
      (52, 22) := by
  have hw := (resizing_window_minimum_size 0 0).1
  have hh := (resizing_window_minimum_size 0 0).2
  have hx : gfloat_to_gint 4294967296 = -2147483648 := by decide
  have r1 := guint_to_gfloat_near_wrap 4294967291 (by decide) (by decide)
  have r2 := guint_to_gfloat_near_wrap 4294967281 (by decide) (by decide)
  refine ⟨by decide, by decide, by decide, by decide, by decide, by decide, ?_, ?_⟩
  · rw [motion_resize_requested_size _ _ _ (by decide) rfl (by decide) rfl rfl, hw, hh]
    have h1 : guint_add_gint resizing_window.priv.drag_width_start
        (({ example_world with pointer_x := 0, pointer_y := 0 } : World).pointer_x -
          resizing_window.priv.drag_x_start) = 4294967291 := by decide
    have h2 : guint_add_gint resizing_window.priv.drag_height_start
        (({ example_world with pointer_x := 0, pointer_y := 0 } : World).pointer_y -
          resizing_window.priv.drag_y_start) = 4294967281 := by decide
    rw [h1, h2]
    rw [r1, r2]
    norm_num [MAX, MIN, hx, gint_to_gfloat_G_MININT, guint_to_gfloat_of_le,
      gint_to_gfloat_of_small, XRRScreenResources.modes_at, XRRScreenResources.nmode,
      example_world, resizing_window, moving_window, fresh_window, mx_window_init]
  · rw [hw, hh]
    norm_num

/-- Where the room left on the screen is below the minimum, the cap is applied
last and wins: with the window at (1000, 750) on the 1024x768 screen, the
minimum 52x22 and the pointer where the resize began, the size requested is
(24, 18).  The value floored at the minimum passes through a `gint`: with a
minimum width of 52.5 and a candidate width of 40 the width requested is
52. -/
theorem resize_below_minimum_when_screen_room_is_smaller :
    (mx_window_get_size cornered_window example_world).width = 52 ∧
    (mx_window_get_size cornered_window example_world).height = 22 ∧
    requested_size
      (mx_window_motion_event cornered_window
        { x := 50, y := 50, modifier_state := 256, device := 2 } example_world).calls =
      some (24, 18) ∧
    (mx_window_get_size resizing_window
      { example_world with pointer_x := 45, preferred_width := fun _ => (101 / 2, 60) }).width =
      105 / 2 ∧
    requested_size
      (mx_window_motion_event resizing_window
        { x := 50, y := 50, modifier_state := 256, device := 2 }
        { example_world with pointer_x := 45, preferred_width := fun _ => (101 / 2, 60) }).calls =
      some (52, 100) := by
  have hw : (mx_window_get_size cornered_window example_world).width = 52 := by
    norm_num [mx_window_get_size, cornered_window, resizing_window, moving_window,
      fresh_window, mx_window_init, example_world]
  have hh : (mx_window_get_size cornered_window example_world).height = 22 := by
    norm_num [mx_window_get_size, cornered_window, resizing_window, moving_window,
      fresh_window, mx_window_init, example_world]
  have hw2 : (mx_window_get_size resizing_window
      { example_world with pointer_x := 45, preferred_width := fun _ => (101 / 2, 60) }).width =
      105 / 2 := by
    norm_num [mx_window_get_size, resizing_window, moving_window,
      fresh_window, mx_window_init, example_world]
  have hh2 : (mx_window_get_size resizing_window
      { example_world with pointer_x := 45, preferred_width := fun _ => (101 / 2, 60) }).height =
      22 := by
    norm_num [mx_window_get_size, resizing_window, moving_window,
      fresh_window, mx_window_init, example_world]
  have h100 : gfloat_to_gint 100 = 100 := by decide
  have h52 : gfloat_to_gint (105 / 2) = 52 := by
    have hn : (105 / 2 : ℚ).num = 105 := by norm_num
    have hd : (105 / 2 : ℚ).den = 2 := by norm_num
    unfold gfloat_to_gint gfloat_trunc
    rw [hn, hd]
    decide
  refine ⟨hw, hh, ?_, hw2, ?_⟩
  · rw [motion_resize_requested_size _ _ _ (by decide) rfl (by decide) rfl rfl, hw, hh]
    have h1 : guint_add_gint cornered_window.priv.drag_width_start
        (example_world.pointer_x - cornered_window.priv.drag_x_start) = 100 := by decide
    have h2 : guint_add_gint cornered_window.priv.drag_height_start
        (example_world.pointer_y - cornered_window.priv.drag_y_start) = 100 := by decide
    rw [h1, h2]
    norm_num [MAX, MIN, h100, guint_to_gfloat_of_le, gint_to_gfloat_of_small,
      XRRScreenResources.modes_at, XRRScreenResources.nmode,
      example_world, cornered_window, resizing_window, moving_window, fresh_window,
      mx_window_init]
  · rw [motion_resize_requested_size _ _ _ (by decide) rfl (by decide) rfl rfl, hw2, hh2]
    have h1 : guint_add_gint resizing_window.priv.drag_width_start
        (({ example_world with pointer_x := 45,
                               preferred_width := fun _ => (101 / 2, 60) } : World).pointer_x -
          resizing_window.priv.drag_x_start) = 40 := by decide
    have h2 : guint_add_gint resizing_window.priv.drag_height_start
        (({ example_world with pointer_x := 45,
                               preferred_width := fun _ => (101 / 2, 60) } : World).pointer_y -
          resizing_window.priv.drag_y_start) = 100 := by decide
    rw [h1, h2]
    norm_num [MAX, MIN, h100, h52, guint_to_gfloat_of_le, gint_to_gfloat_of_small,
      XRRScreenResources.modes_at, XRRScreenResources.nmode,
      example_world, resizing_window, moving_window, fresh_window, mx_window_init]

/-- C9 (defect in the code): the size requested during a resize is not kept
within the bounds.  For `resizing_window` (start 100x100, pointer start
(105, 115), window at (10, 20), minimum 52x22) on the 1024x768 screen there is
room for the minimum, 1014x748.  With the pointer at (4, 14), start + delta is
(-1, -1); the sum is made in `guint` and wraps, and the size requested is
(G_MININT, G_MININT), below the minimum; in a build against a Clutter older
than 1.2.0 that size reaches `XMoveResizeWindow` as the `unsigned int`
2147483648, above the room on the screen.  With the pointer at (1023, 767) and
the mode record read past the end of the array holding 4096x4096, the size
requested is (1018, 752), above the room (1014, 748) on the screen. -/
theorem resize_leaves_bounds :
    (mx_window_get_size resizing_window
      { example_world with pointer_x := 4, pointer_y := 14 }).width = 52 ∧
    (mx_window_get_size resizing_window
      { example_world with pointer_x := 4, pointer_y := 14 }).height = 22 ∧
    ((52 : ℚ) ≤ 1024 - 10 ∧ (22 : ℚ) ≤ 768 - 20) ∧
    (resizing_window.priv.drag_width_start : Int) +
      (4 - resizing_window.priv.drag_x_start) = -1 ∧
    (resizing_window.priv.drag_height_start : Int) +
      (14 - resizing_window.priv.drag_y_start) = -1 ∧
    requested_size
      (mx_window_motion_event resizing_window
        { x := 50, y := 50, modifier_state := 256, device := 2 }
        { example_world with pointer_x := 4, pointer_y := 14 }).calls =
      some (-2147483648, -2147483648) ∧
    ((-2147483648 : ℚ) < 52 ∧ (-2147483648 : ℚ) < 22) ∧
    requested_size
      (mx_window_motion_event resizing_window
        { x := 50, y := 50, modifier_state := 256, device := 2 }
        { example_world with
          pointer_x := 4, pointer_y := 14, clutter_check_version_1_2_0 := false }).calls =
      some (2147483648, 2147483648) ∧
    ((2147483648 : ℚ) > 1024 - 10 ∧ (2147483648 : ℚ) > 768 - 20) ∧
    large_past_the_end_screen.modes = [{ width := 1024, height := 768 }] ∧
    requested_size
      (mx_window_motion_event resizing_window
        { x := 50, y := 50, modifier_state := 256, device := 2 }
        { example_world with
          pointer_x := 1023, pointer_y := 767, screen := large_past_the_end_screen }).calls =
      some (1018, 752) ∧
    ((1018 : ℚ) > 1024 - 10 ∧ (752 : ℚ) > 768 - 20) := by
  have hw := (resizing_window_minimum_size 4 14).1
  have hh := (resizing_window_minimum_size 4 14).2
  have hw2 : (mx_window_get_size resizing_window
      { example_world with
        pointer_x := 1023, pointer_y := 767, screen := large_past_the_end_screen }).width =
      52 := by
    norm_num [mx_window_get_size, resizing_window, moving_window, fresh_window,
      mx_window_init, example_world]
  have hh2 : (mx_window_get_size resizing_window
      { example_world with
        pointer_x := 1023, pointer_y := 767, screen := large_past_the_end_screen }).height =
      22 := by
    norm_num [mx_window_get_size, resizing_window, moving_window, fresh_window,
      mx_window_init, example_world]
  have hw3 : (mx_window_get_size resizing_window
      { example_world with
        pointer_x := 4, pointer_y := 14, clutter_check_version_1_2_0 := false }).width =
      52 := by
    norm_num [mx_window_get_size, resizing_window, moving_window, fresh_window,
      mx_window_init, example_world]
  have hh3 : (mx_window_get_size resizing_window
      { example_world with
        pointer_x := 4, pointer_y := 14, clutter_check_version_1_2_0 := false }).height =
      22 := by
    norm_num [mx_window_get_size, resizing_window, moving_window, fresh_window,
      mx_window_init, example_world]
  have hx : gfloat_to_gint 4294967296 = -2147483648 := by decide
  have hu : gfloat_to_guint (-2147483648) = 2147483648 := by decide
  have r1 := guint_to_gfloat_near_wrap 4294967295 (by decide) (by decide)
  have h1018 : gfloat_to_gint 1018 = 1018 := by decide
  have h752 : gfloat_to_gint 752 = 752 := by decide
  refine ⟨hw, hh, by norm_num, by decide, by decide, ?_, by norm_num, ?_, by norm_num, rfl, ?_,
    by norm_num⟩
  · rw [motion_resize_requested_size _ _ _ (by decide) rfl (by decide) rfl rfl, hw, hh]
    have h1 : guint_add_gint resizing_window.priv.drag_width_start
        (({ example_world with pointer_x := 4, pointer_y := 14 } : World).pointer_x -
          resizing_window.priv.drag_x_start) = 4294967295 := by decide
    have h2 : guint_add_gint resizing_window.priv.drag_height_start
        (({ example_world with pointer_x := 4, pointer_y := 14 } : World).pointer_y -
          resizing_window.priv.drag_y_start) = 4294967295 := by decide
    rw [h1, h2, r1]
    norm_num [MAX, MIN, hx, gint_to_gfloat_G_MININT, guint_to_gfloat_of_le,
      gint_to_gfloat_of_small, XRRScreenResources.modes_at, XRRScreenResources.nmode,
      example_world, resizing_window, moving_window, fresh_window, mx_window_init]
  · rw [motion_resize_requested_size_before_1_2 _ _ _ (by decide) rfl (by decide) rfl rfl,
      hw3, hh3]
    have h1 : guint_add_gint resizing_window.priv.drag_width_start
        (({ example_world with
            pointer_x := 4, pointer_y := 14,
            clutter_check_version_1_2_0 := false } : World).pointer_x -
          resizing_window.priv.drag_x_start) = 4294967295 := by decide
    have h2 : guint_add_gint resizing_window.priv.drag_height_start
        (({ example_world with
            pointer_x := 4, pointer_y := 14,
            clutter_check_version_1_2_0 := false } : World).pointer_y -
          resizing_window.priv.drag_y_start) = 4294967295 := by decide
    have hmw : MIN (gint_to_gfloat (gfloat_to_gint (MAX (guint_to_gfloat 4294967295) 52)))
        (guint_to_gfloat
            (({ example_world with
                pointer_x := 4, pointer_y := 14,
                clutter_check_version_1_2_0 := false } : World).screen.modes_at
              ({ example_world with
                pointer_x := 4, pointer_y := 14,
                clutter_check_version_1_2_0 := false } : World).screen.nmode).width -
          gint_to_gfloat resizing_window.priv.drag_win_x_start) = -2147483648 := by
      rw [r1]
      norm_num [MAX, MIN, hx, gint_to_gfloat_G_MININT, guint_to_gfloat_of_le,
        gint_to_gfloat_of_small, XRRScreenResources.modes_at, XRRScreenResources.nmode,
        example_world, resizing_window, moving_window, fresh_window, mx_window_init]
    have hmh : MIN (gint_to_gfloat (gfloat_to_gint (MAX (guint_to_gfloat 4294967295) 22)))
        (guint_to_gfloat
            (({ example_world with
                pointer_x := 4, pointer_y := 14,
                clutter_check_version_1_2_0 := false } : World).screen.modes_at
              ({ example_world with
                pointer_x := 4, pointer_y := 14,
                clutter_check_version_1_2_0 := false } : World).screen.nmode).height -
          gint_to_gfloat resizing_window.priv.drag_win_y_start) = -2147483648 := by
      rw [r1]
      norm_num [MAX, MIN, hx, gint_to_gfloat_G_MININT, guint_to_gfloat_of_le,
        gint_to_gfloat_of_small, XRRScreenResources.modes_at, XRRScreenResources.nmode,
        example_world, resizing_window, moving_window, fresh_window, mx_window_init]
    rw [h1, h2, hmw, hmh, hu]
    norm_num
  · rw [motion_resize_requested_size _ _ _ (by decide) rfl (by decide) rfl rfl, hw2, hh2]
    have h1 : guint_add_gint resizing_window.priv.drag_width_start
        (({ example_world with
            pointer_x := 1023, pointer_y := 767,
            screen := large_past_the_end_screen } : World).pointer_x -
          resizing_window.priv.drag_x_start) = 1018 := by decide
    have h2 : guint_add_gint resizing_window.priv.drag_height_start
        (({ example_world with
            pointer_x := 1023, pointer_y := 767,
            screen := large_past_the_end_screen } : World).pointer_y -
          resizing_window.priv.drag_y_start) = 752 := by decide
    rw [h1, h2]
    norm_num [MAX, MIN, h1018, h752, guint_to_gfloat_of_le, gint_to_gfloat_of_small,
      XRRScreenResources.modes_at, XRRScreenResources.nmode,
      large_past_the_end_screen, resizing_window, moving_window, fresh_window,
      mx_window_init]

/-! ## C10: button release -/

/-- What `mx_window_button_release_event` does for a device id other than -1:
it returns TRUE exactly when a session is active, the device is the session's
and the button is 1, and then ends the session with one ungrab of the
session's device and the re-enabling of motion dispatch; otherwise it returns
FALSE, makes no call and leaves the state unchanged.  No display mode is
consulted. -/
theorem button_release_event_of_valid_device (s : State) (event : ClutterButtonEvent)
    (hv : event.device ≠ -1) :
    ((mx_window_button_release_event s event).ret = true ↔
      (session_active s ∧ event.device = s.priv.is_moving ∧ event.button = 1)) ∧
    ((mx_window_button_release_event s event).ret = true →
      (mx_window_button_release_event s event).st.priv.is_moving = -1 ∧
      (mx_window_button_release_event s event).st.motion_events_enabled = true ∧
      (mx_window_button_release_event s event).st.pointer_grabs =
        ungrab_pointer s.pointer_grabs s.priv.is_moving ∧
      (mx_window_button_release_event s event).calls =
        [Call.clutter_ungrab_pointer_for_device s.priv.is_moving,
         Call.clutter_set_motion_events_enabled true]) ∧
    ((mx_window_button_release_event s event).ret = false →
      (mx_window_button_release_event s event).st = s ∧
      (mx_window_button_release_event s event).calls = []) := by
  unfold mx_window_button_release_event
  by_cases hc : event.device = s.priv.is_moving ∧ event.button = 1
  · have hm : s.priv.is_moving ≠ -1 := by rw [← hc.1]; exact hv
    rw [if_pos hc]
    unfold mx_window_button_release
    rw [if_pos hm]
    refine ⟨?_, ?_, ?_⟩
    · exact ⟨fun _ => ⟨hm, hc.1, hc.2⟩, fun _ => rfl⟩
    · intro _
      exact ⟨rfl, rfl, rfl, rfl⟩
    · intro h
      exact Bool.noConfusion h
  · rw [if_neg hc]
    refine ⟨?_, ?_, ?_⟩
    · constructor
      · intro h
        exact Bool.noConfusion h
      · intro h
        exact absurd ⟨h.2.1, h.2.2⟩ hc
    · intro h
      exact Bool.noConfusion h
    · intro _
      exact ⟨rfl, rfl⟩

/-- C10 (defect in the code): `mx_window_button_release_event` returns TRUE for
a release of button 1 by a device whose id is -1 while no session is active:
the id equals `is_moving`, which is -1 when there is no session.  Nothing is
ended: the state is unchanged and no call is made. -/
theorem release_of_device_minus_one_returns_true_without_session :
    ¬ session_active fresh_window ∧
    mx_window_button_release_event fresh_window
      { x := 5, y := 5, modifier_state := 256, button := 1, device := -1 } =
      { ret := true, st := fresh_window, calls := [] } := by
  refine ⟨by decide, ?_⟩
  rfl

/-! ## C11: the hover probe is edge-triggered -/

/-- The cursor calls of one hover probe. -/
theorem hover_probe_cursor_calls (s : State) (mevent : ClutterMotionEvent) (w : World)
    (hn : normal_mode s) (hm : s.priv.is_moving = -1) :
    cursor_calls (mx_window_captured_event s (ClutterEvent.motion mevent) w).calls =
      if over_resize_grip s mevent w = true ∧ s.priv.is_resizing = false then
        [Call.XDefineCursor (resize_cursor s w)]
      else if over_resize_grip s mevent w = false ∧ s.priv.is_resizing = true then
        [Call.XUndefineCursor]
      else [] := by
  obtain ⟨h1, h2, h3⟩ := hn
  have hc : s.priv.is_moving = -1 ∧ s.priv.has_toolbar = true ∧
      s.priv.small_screen = false ∧ s.fullscreen = false := ⟨hm, h1, h2, h3⟩
  simp only [mx_window_captured_event]
  rw [if_pos hc]
  by_cases hg : over_resize_grip s mevent w = true <;>
    by_cases hr : s.priv.is_resizing = true <;>
    by_cases h0 : s.csoutheast = 0 <;>
    simp [hg, hr, h0, cursor_calls, resize_cursor]

/-- Hover probes keep the window in normal mode without a session. -/
theorem hover_run_keeps_mode (events : List (ClutterMotionEvent × World)) (s : State)
    (hn : normal_mode s) (hm : s.priv.is_moving = -1) :
    normal_mode (hover_run s events) ∧ (hover_run s events).priv.is_moving = -1 := by
  induction events generalizing s with
  | nil => exact ⟨hn, hm⟩
  | cons e rest ih =>
      obtain ⟨hp, hf, _, _, _⟩ := hover_probe s e.1 e.2 hn hm
      have hn1 : normal_mode (mx_window_captured_event s (ClutterEvent.motion e.1) e.2).st := by
        obtain ⟨h1, h2, h3⟩ := hn
        refine ⟨?_, ?_, ?_⟩
        · rw [hp]; exact h1
        · rw [hp]; exact h2
        · rw [hf]; exact h3
      have hm1 : (mx_window_captured_event s (ClutterEvent.motion e.1) e.2).st.priv.is_moving
          = -1 := by
        rw [hp]; exact hm
      exact ih _ hn1 hm1

/-- Hover probes along a sequence, in terms of the hit test of the handler: in
normal mode with no session each motion event seen by
`mx_window_captured_event` makes one `XDefineCursor` call when the hit test
succeeds and `is_resizing` was unset, one `XUndefineCursor` call when it fails
and `is_resizing` was set, and no cursor call otherwise; `is_resizing` and the
return value become the result of the hit test. -/
theorem hover_probe_edge_triggered (s : State) (pre : List (ClutterMotionEvent × World))
    (mevent : ClutterMotionEvent) (w : World)
    (hn : normal_mode s) (hm : s.priv.is_moving = -1) :
    normal_mode (hover_run s pre) ∧ (hover_run s pre).priv.is_moving = -1 ∧
    cursor_calls
        (mx_window_captured_event (hover_run s pre) (ClutterEvent.motion mevent) w).calls =
      (if over_resize_grip (hover_run s pre) mevent w = true ∧
          (hover_run s pre).priv.is_resizing = false then
        [Call.XDefineCursor (resize_cursor (hover_run s pre) w)]
      else if over_resize_grip (hover_run s pre) mevent w = false ∧
          (hover_run s pre).priv.is_resizing = true then
        [Call.XUndefineCursor]
      else []) ∧
    (mx_window_captured_event (hover_run s pre) (ClutterEvent.motion mevent) w
      ).st.priv.is_resizing = over_resize_grip (hover_run s pre) mevent w ∧
    (mx_window_captured_event (hover_run s pre) (ClutterEvent.motion mevent) w).ret =
      over_resize_grip (hover_run s pre) mevent w ∧
    (∀ pre0 m0 w0, pre = pre0 ++ [(m0, w0)] →
      (hover_run s pre).priv.is_resizing = over_resize_grip (hover_run s pre0) m0 w0) := by
  obtain ⟨hn1, hm1⟩ := hover_run_keeps_mode pre s hn hm
  obtain ⟨hp, _, _, _, hret⟩ := hover_probe (hover_run s pre) mevent w hn1 hm1
  refine ⟨hn1, hm1, hover_probe_cursor_calls _ mevent w hn1 hm1, ?_, hret, ?_⟩
  · rw [hp]
  · intro pre0 m0 w0 he
    obtain ⟨hn0, hm0⟩ := hover_run_keeps_mode pre0 s hn hm
    obtain ⟨hp0, _, _, _, _⟩ := hover_probe (hover_run s pre0) m0 w0 hn0 hm0
    have hrun : hover_run s pre =
        (mx_window_captured_event (hover_run s pre0) (ClutterEvent.motion m0) w0).st := by
      rw [he]
      unfold hover_run
      rw [List.foldl_append]
      rfl
    rw [hrun, hp0]

/-- The truncation made by the conversion of a `gfloat` drops the fractional
part. -/
theorem gfloat_trunc_eq_truncate_toward_zero (q : ℚ) :
    gfloat_trunc q = truncate_toward_zero q := by
  unfold truncate_toward_zero
  split_ifs with h
  · exact gfloat_trunc_of_nonneg q h
  · have hneg : 0 ≤ -q := by linarith
    have h1 : gfloat_trunc (-q) = ⌊-q⌋ := gfloat_trunc_of_nonneg (-q) hneg
    have h2 : gfloat_trunc (-q) = -gfloat_trunc q := by
      unfold gfloat_trunc
      rw [Rat.neg_num, Rat.neg_den, Int.neg_tdiv]
    rw [h2, Int.floor_neg] at h1
    exact neg_injective h1

/-- The conversion of a `gfloat` whose truncation fits a `gint`. -/
theorem gfloat_to_gint_of_representable (q : ℚ)
    (h : -2147483648 ≤ truncate_toward_zero q ∧ truncate_toward_zero q ≤ 2147483647) :
    gfloat_to_gint q = truncate_toward_zero q := by
  unfold gfloat_to_gint
  rw [gfloat_trunc_eq_truncate_toward_zero]
  have hrep : gint_representable (truncate_toward_zero q) := h
  rw [if_pos hrep]

/-- Hover probes leave the grip texture as it is. -/
theorem hover_run_keeps_grip (events : List (ClutterMotionEvent × World)) (s : State)
    (hn : normal_mode s) (hm : s.priv.is_moving = -1) :
    (hover_run s events).priv.resize_grip = s.priv.resize_grip := by
  induction events generalizing s with
  | nil => rfl
  | cons e rest ih =>
      obtain ⟨hp, hf, _, _, _⟩ := hover_probe s e.1 e.2 hn hm
      have hn1 : normal_mode (mx_window_captured_event s (ClutterEvent.motion e.1) e.2).st := by
        obtain ⟨h1, h2, h3⟩ := hn
        refine ⟨?_, ?_, ?_⟩
        · rw [hp]; exact h1
        · rw [hp]; exact h2
        · rw [hf]; exact h3
      have hm1 : (mx_window_captured_event s (ClutterEvent.motion e.1) e.2).st.priv.is_moving
          = -1 := by
        rw [hp]; exact hm
      have hrun : hover_run s (e :: rest) =
          hover_run (mx_window_captured_event s (ClutterEvent.motion e.1) e.2).st rest := rfl
      rw [hrun, ih _ hn1 hm1, hp]

/-- The hit test of the hover branch is the grip region of the hover property,
applied to the coordinates of the event with their fractional parts dropped,
for coordinates and a grip that a `gfloat` holds without rounding (whole
numbers up to `2 ^ 24` in magnitude). -/
theorem over_resize_grip_eq_region (s : State) (mevent : ClutterMotionEvent) (w : World)
    (hx : -16777216 ≤ truncate_toward_zero mevent.x ∧
      truncate_toward_zero mevent.x ≤ 16777216)
    (hy : -16777216 ≤ truncate_toward_zero mevent.y ∧
      truncate_toward_zero mevent.y ≤ 16777216)
    (hg : grip_width s.priv ≤ 16777216 ∧ grip_height s.priv ≤ 16777216) :
    over_resize_grip s mevent w =
      decide (pointer_in_grip_region (truncate_toward_zero mevent.x : ℚ)
        (truncate_toward_zero mevent.y : ℚ) w.actor_width w.actor_height
        (grip_width s.priv) (grip_height s.priv)) := by
  have hx1 := hx.1
  have hx2 := hx.2
  have hy1 := hy.1
  have hy2 := hy.2
  unfold over_resize_grip pointer_in_grip_region
  rw [gfloat_to_gint_of_representable _ ⟨by omega, by omega⟩,
    gfloat_to_gint_of_representable _ ⟨by omega, by omega⟩,
    gint_to_gfloat_of_small _ hx1 hx2, gint_to_gfloat_of_small _ hy1 hy2,
    guint_to_gfloat_of_le _ hg.1, guint_to_gfloat_of_le _ hg.2]
  simp [Bool.decide_and]

/-- C11 (counterexample): the hit test is not made on the position of the
pointer as it is.  In the 100x100 window with a 10x10 grip, with the previous
hover state outside, a motion event at (90.5, 95) is inside the grip region
(90.5 > 100 - 10 and 95 > 100 - 10), yet no cursor call is made, `is_resizing`
stays unset and the event is not consumed: the handler compares 90, not
90.5. -/
theorem hover_inside_region_missed_by_truncation :
    pointer_in_grip_region (181 / 2) 95 example_world.actor_width example_world.actor_height
      (grip_width fresh_window.priv) (grip_height fresh_window.priv) ∧
    normal_mode fresh_window ∧ fresh_window.priv.is_moving = -1 ∧
    fresh_window.priv.is_resizing = false ∧
    cursor_calls
      (mx_window_captured_event fresh_window
        (ClutterEvent.motion { x := 181 / 2, y := 95, modifier_state := 0, device := 2 })
        example_world).calls = [] ∧
    (mx_window_captured_event fresh_window
      (ClutterEvent.motion { x := 181 / 2, y := 95, modifier_state := 0, device := 2 })
      example_world).st.priv.is_resizing = false ∧
    (mx_window_captured_event fresh_window
      (ClutterEvent.motion { x := 181 / 2, y := 95, modifier_state := 0, device := 2 })
      example_world).ret = false := by
  have h90 : gfloat_to_gint (181 / 2) = 90 := by
    have hn : (181 / 2 : ℚ).num = 181 := by norm_num
    have hd : (181 / 2 : ℚ).den = 2 := by norm_num
    unfold gfloat_to_gint gfloat_trunc
    rw [hn, hd]
    decide
  have h95 : gfloat_to_gint 95 = 95 := by decide
  have hout : over_resize_grip fresh_window
      { x := 181 / 2, y := 95, modifier_state := 0, device := 2 } example_world = false := by
    simp only [over_resize_grip, h90, h95, fresh_window, mx_window_init, grip_width,
      grip_height, example_world]
    norm_num [guint_to_gfloat_of_le, gint_to_gfloat_of_small]
  obtain ⟨hp, _, _, _, hret⟩ := hover_probe fresh_window
    { x := 181 / 2, y := 95, modifier_state := 0, device := 2 } example_world
    (by decide) (by decide)
  refine ⟨?_, by decide, by decide, by decide, ?_, ?_, ?_⟩
  · norm_num [pointer_in_grip_region, grip_width, grip_height, fresh_window, mx_window_init,
      example_world]
  · rw [hover_probe_cursor_calls fresh_window _ example_world (by decide) (by decide), hout]
    simp
    decide
  · rw [hp]
    exact hout
  · rw [hret]
    exact hout

/-- C11 (amended): in normal mode with a toolbar and no active session, with a
grip of at most 16777216 on each side, along every sequence of motion events
seen by `mx_window_captured_event`, an event whose coordinates, with their
fractional parts dropped, lie between -16777216 and 16777216 makes exactly one
`XDefineCursor` call when that whole-number position is inside the grip region
(x > width - gripWidth and y > height - gripHeight) and the previous hover
state `is_resizing` was unset, exactly one `XUndefineCursor` call when it is
outside and the previous hover state was set, and no cursor call otherwise;
after the event `is_resizing` is whether the whole-number position is inside
the region, and so is the return value; the previous hover state is the one
left by the event before. -/
theorem hover_cursor_follows_truncated_position (s : State)
    (pre : List (ClutterMotionEvent × World)) (mevent : ClutterMotionEvent) (w : World)
    (hn : normal_mode s) (hm : s.priv.is_moving = -1)
    (hg : grip_width s.priv ≤ 16777216 ∧ grip_height s.priv ≤ 16777216)
    (hx : -16777216 ≤ truncate_toward_zero mevent.x ∧
      truncate_toward_zero mevent.x ≤ 16777216)
    (hy : -16777216 ≤ truncate_toward_zero mevent.y ∧
      truncate_toward_zero mevent.y ≤ 16777216) :
    normal_mode (hover_run s pre) ∧ (hover_run s pre).priv.is_moving = -1 ∧
    cursor_calls
        (mx_window_captured_event (hover_run s pre) (ClutterEvent.motion mevent) w).calls =
      (if pointer_in_grip_region (truncate_toward_zero mevent.x : ℚ)
            (truncate_toward_zero mevent.y : ℚ) w.actor_width w.actor_height
            (grip_width s.priv) (grip_height s.priv) ∧
          (hover_run s pre).priv.is_resizing = false then
        [Call.XDefineCursor (resize_cursor (hover_run s pre) w)]
      else if ¬ pointer_in_grip_region (truncate_toward_zero mevent.x : ℚ)
            (truncate_toward_zero mevent.y : ℚ) w.actor_width w.actor_height
            (grip_width s.priv) (grip_height s.priv) ∧
          (hover_run s pre).priv.is_resizing = true then
        [Call.XUndefineCursor]
      else []) ∧
    (mx_window_captured_event (hover_run s pre) (ClutterEvent.motion mevent) w
      ).st.priv.is_resizing =
      decide (pointer_in_grip_region (truncate_toward_zero mevent.x : ℚ)
        (truncate_toward_zero mevent.y : ℚ) w.actor_width w.actor_height
        (grip_width s.priv) (grip_height s.priv)) ∧
    (mx_window_captured_event (hover_run s pre) (ClutterEvent.motion mevent) w).ret =
      decide (pointer_in_grip_region (truncate_toward_zero mevent.x : ℚ)
        (truncate_toward_zero mevent.y : ℚ) w.actor_width w.actor_height
        (grip_width s.priv) (grip_height s.priv)) ∧
    (∀ pre0 m0 w0, pre = pre0 ++ [(m0, w0)] →
      (-16777216 ≤ truncate_toward_zero m0.x ∧ truncate_toward_zero m0.x ≤ 16777216) →
      (-16777216 ≤ truncate_toward_zero m0.y ∧ truncate_toward_zero m0.y ≤ 16777216) →
      (hover_run s pre).priv.is_resizing =
        decide (pointer_in_grip_region (truncate_toward_zero m0.x : ℚ)
          (truncate_toward_zero m0.y : ℚ) w0.actor_width w0.actor_height
          (grip_width s.priv) (grip_height s.priv))) := by
  obtain ⟨hn1, hm1, hcalls, hres, hret, hprev⟩ := hover_probe_edge_triggered s pre mevent w hn hm
  have hgrip : ∀ l : List (ClutterMotionEvent × World),
      grip_width (hover_run s l).priv = grip_width s.priv ∧
      grip_height (hover_run s l).priv = grip_height s.priv := by
    intro l
    unfold grip_width grip_height
    rw [hover_run_keeps_grip l s hn hm]
    exact ⟨rfl, rfl⟩
  have hov := over_resize_grip_eq_region (hover_run s pre) mevent w hx hy
    (by rw [(hgrip pre).1, (hgrip pre).2]; exact hg)
  rw [(hgrip pre).1, (hgrip pre).2] at hov
  refine ⟨hn1, hm1, ?_, ?_, ?_, ?_⟩
  · rw [hcalls, hov]
    simp only [decide_eq_true_eq, decide_eq_false_iff_not]
  · rw [hres, hov]
  · rw [hret, hov]
  · intro pre0 m0 w0 he hx0 hy0
    have hov0 := over_resize_grip_eq_region (hover_run s pre0) m0 w0 hx0 hy0
      (by rw [(hgrip pre0).1, (hgrip pre0).2]; exact hg)
    rw [(hgrip pre0).1, (hgrip pre0).2] at hov0
    rw [hprev pre0 m0 w0 he, hov0]

/-- In the 100x100 window with a 10x10 grip: after a hover at (5, 5), a hover
at (95, 95) sets the resize cursor and is consumed; after that, a hover at
(96, 96) makes no cursor call and a hover at (95, 5), inside on one axis only,
clears the cursor and is not consumed. -/
theorem hover_cursor_follows_truncated_position_witness :
    normal_mode fresh_window ∧ fresh_window.priv.is_moving = -1 ∧
    cursor_calls
      (mx_window_captured_event
        (hover_run fresh_window
          [({ x := 5, y := 5, modifier_state := 0, device := 2 }, example_world)])
        (ClutterEvent.motion { x := 95, y := 95, modifier_state := 0, device := 2 })
        example_world).calls = [Call.XDefineCursor 7] ∧
    (mx_window_captured_event
      (hover_run fresh_window
        [({ x := 5, y := 5, modifier_state := 0, device := 2 }, example_world)])
      (ClutterEvent.motion { x := 95, y := 95, modifier_state := 0, device := 2 })
      example_world).ret = true ∧
    cursor_calls
      (mx_window_captured_event
        (hover_run fresh_window
          [({ x := 5, y := 5, modifier_state := 0, device := 2 }, example_world),
           ({ x := 95, y := 95, modifier_state := 0, device := 2 }, example_world)])
        (ClutterEvent.motion { x := 96, y := 96, modifier_state := 0, device := 2 })
        example_world).calls = [] ∧
    cursor_calls
      (mx_window_captured_event
        (hover_run fresh_window
          [({ x := 5, y := 5, modifier_state := 0, device := 2 }, example_world),
           ({ x := 95, y := 95, modifier_state := 0, device := 2 }, example_world)])
        (ClutterEvent.motion { x := 95, y := 5, modifier_state := 0, device := 2 })
        example_world).calls = [Call.XUndefineCursor] ∧
    (mx_window_captured_event
      (hover_run fresh_window
        [({ x := 5, y := 5, modifier_state := 0, device := 2 }, example_world),
         ({ x := 95, y := 95, modifier_state := 0, device := 2 }, example_world)])
      (ClutterEvent.motion { x := 95, y := 5, modifier_state := 0, device := 2 })
      example_world).ret = false := by
  have h95 : gfloat_to_gint 95 = 95 := by decide
  have h5 : gfloat_to_gint 5 = 5 := by decide
  have hs1 : hover_run fresh_window
      [({ x := 5, y := 5, modifier_state := 0, device := 2 }, example_world)] =
      { fresh_window with csoutheast := 7 } := by
    norm_num [hover_run, mx_window_captured_event, over_resize_grip, grip_width, grip_height,
      fresh_window, mx_window_init, example_world, h5, guint_to_gfloat_of_le,
      gint_to_gfloat_of_small]
  have hs2 : hover_run fresh_window
      [({ x := 5, y := 5, modifier_state := 0, device := 2 }, example_world),
       ({ x := 95, y := 95, modifier_state := 0, device := 2 }, example_world)] =
      { fresh_window with
        csoutheast := 7, priv := { fresh_window.priv with is_resizing := true } } := by
    norm_num [hover_run, mx_window_captured_event, over_resize_grip, grip_width, grip_height,
      fresh_window, mx_window_init, example_world, h5, h95, guint_to_gfloat_of_le,
      gint_to_gfloat_of_small]
  have t5 : truncate_toward_zero 5 = 5 := by norm_num [truncate_toward_zero]
  have t95 : truncate_toward_zero 95 = 95 := by norm_num [truncate_toward_zero]
  have t96 : truncate_toward_zero 96 = 96 := by norm_num [truncate_toward_zero]
  have hb := hover_cursor_follows_truncated_position fresh_window
    [({ x := 5, y := 5, modifier_state := 0, device := 2 }, example_world)]
    { x := 95, y := 95, modifier_state := 0, device := 2 } example_world
    (by decide) (by decide) (by decide) (by rw [t95]; decide) (by rw [t95]; decide)
  have hc := hover_cursor_follows_truncated_position fresh_window
    [({ x := 5, y := 5, modifier_state := 0, device := 2 }, example_world),
     ({ x := 95, y := 95, modifier_state := 0, device := 2 }, example_world)]
    { x := 96, y := 96, modifier_state := 0, device := 2 } example_world
    (by decide) (by decide) (by decide) (by rw [t96]; decide) (by rw [t96]; decide)
  have hd := hover_cursor_follows_truncated_position fresh_window
    [({ x := 5, y := 5, modifier_state := 0, device := 2 }, example_world),
     ({ x := 95, y := 95, modifier_state := 0, device := 2 }, example_world)]
    { x := 95, y := 5, modifier_state := 0, device := 2 } example_world
    (by decide) (by decide) (by decide) (by rw [t95]; decide) (by rw [t5]; decide)
  refine ⟨by decide, by decide, ?_, ?_, ?_, ?_, ?_⟩
  · rw [hb.2.2.1, hs1, t95]
    norm_num [pointer_in_grip_region, resize_cursor, grip_width, grip_height, fresh_window,
      mx_window_init, example_world]
  · rw [hb.2.2.2.2.1, t95]
    norm_num [pointer_in_grip_region, grip_width, grip_height, fresh_window,
      mx_window_init, example_world]
  · rw [hc.2.2.1, hs2, t96]
    norm_num [pointer_in_grip_region, resize_cursor, grip_width, grip_height, fresh_window,
      mx_window_init, example_world]
  · rw [hd.2.2.1, hs2, t95, t5]
    norm_num [pointer_in_grip_region, resize_cursor, grip_width, grip_height, fresh_window,
      mx_window_init, example_world]
  · rw [hd.2.2.2.2.1, t95, t5]
    norm_num [pointer_in_grip_region, grip_width, grip_height, fresh_window,
      mx_window_init, example_world]

/-! ## C12: fullscreen during a drag -/

/-- What `mx_window_fullscreen_set_cb` does: it queues a relayout and may
clear `has_mapped`; the session, the grab and motion dispatch are as before. -/
theorem fullscreen_set_cb_keeps_session (s : State) :
    (mx_window_fullscreen_set_cb s).1.priv.is_moving = s.priv.is_moving ∧
    (mx_window_fullscreen_set_cb s).1.pointer_grabs = s.pointer_grabs ∧
    (mx_window_fullscreen_set_cb s).1.motion_events_enabled = s.motion_events_enabled ∧
    (mx_window_fullscreen_set_cb s).1.fullscreen = s.fullscreen ∧
    (mx_window_fullscreen_set_cb s).2 = [Call.clutter_actor_queue_relayout] := by
  unfold mx_window_fullscreen_set_cb
  split_ifs <;> exact ⟨rfl, rfl, rfl, rfl, rfl⟩

/-- C12 (defect in the code): a change to fullscreen during a drag does not end
the session.  For `moving_window`, after the stage has become fullscreen and
`mx_window_fullscreen_set_cb` has run, `is_moving` is still 2, the pointer is
still grabbed for device 2 and motion dispatch is still disabled; the only
call made is the queueing of a relayout.  A later motion event of device 2
without button 1 is ignored, so the implicit release does not end the session
either. -/
theorem fullscreen_change_leaves_session_active :
    session_active moving_window ∧
    (step moving_window (Input.fullscreen_changed true)).fullscreen = true ∧
    (step moving_window (Input.fullscreen_changed true)).priv.is_moving = 2 ∧
    (step moving_window (Input.fullscreen_changed true)).pointer_grabs = [2] ∧
    (step moving_window (Input.fullscreen_changed true)).motion_events_enabled = false ∧
    (mx_window_fullscreen_set_cb { moving_window with fullscreen := true }).2 =
      [Call.clutter_actor_queue_relayout] ∧
    (run moving_window
      [Input.fullscreen_changed true,
       Input.motion { x := 50, y := 50, modifier_state := 0, device := 2 } example_world]
      ).pointer_grabs = [2] ∧
    (mx_window_motion_event (step moving_window (Input.fullscreen_changed true))
      { x := 50, y := 50, modifier_state := 0, device := 2 } example_world).ret = false := by
  refine ⟨?_, ?_, ?_, ?_, ?_, ?_, ?_, ?_⟩ <;> decide

/-! ## C13: small-screen change during a drag -/

/-- The end of a drag in `mx_window_set_small_screen`, for an active session. -/
theorem small_screen_end_drag_of_active (s : State) (hs : s.priv.is_moving ≠ -1) :
    (small_screen_end_drag s).1 =
      { s with
        priv := { s.priv with is_moving := -1, is_resizing := false }
        motion_events_enabled := true
        pointer_grabs := ungrab_pointer s.pointer_grabs s.priv.is_moving } ∧
    (small_screen_end_drag s).2 =
      [Call.clutter_ungrab_pointer_for_device s.priv.is_moving,
       Call.clutter_set_motion_events_enabled true] ++
      (if s.priv.is_resizing = true then [Call.XUndefineCursor] else []) := by
  unfold small_screen_end_drag
  rw [if_pos hs]
  by_cases hr : s.priv.is_resizing = true
  · simp [hr]
  · simp only [hr, if_false, List.append_nil, and_true]
    simp only [Bool.not_eq_true] at hr
    cases hst : s with
    | mk priv fullscreen csoutheast motion_events_enabled pointer_grabs =>
        rw [hst] at hr
        cases hp : priv
        rw [hp] at hr
        simp at hr
        simp [hr]

/-- C13: during an active session, with a backend window, a call of
`mx_window_set_small_screen` whose argument differs from `small_screen` ends
the session: afterwards `is_moving` is -1, the former session device is no
longer grabbed (one ungrab call for it is made), motion dispatch is enabled
(one call enabling it), `is_resizing` is FALSE, the cursor being cleared by
one `XUndefineCursor` exactly when `is_resizing` was set, and `small_screen`
is the argument. -/
theorem small_screen_change_ends_session (s : State) (small_screen : Bool) (w : World)
    (hs : session_active s) (hw : w.stage_window ≠ 0)
    (hd : s.priv.small_screen ≠ small_screen) :
    (mx_window_set_small_screen s small_screen w).1.priv.is_moving = -1 ∧
    (mx_window_set_small_screen s small_screen w).1.pointer_grabs =
      ungrab_pointer s.pointer_grabs s.priv.is_moving ∧
    s.priv.is_moving ∉ (mx_window_set_small_screen s small_screen w).1.pointer_grabs ∧
    (mx_window_set_small_screen s small_screen w).1.motion_events_enabled = true ∧
    (mx_window_set_small_screen s small_screen w).1.priv.is_resizing = false ∧
    (mx_window_set_small_screen s small_screen w).1.priv.small_screen = small_screen ∧
    grab_calls (mx_window_set_small_screen s small_screen w).2 =
      [Call.clutter_ungrab_pointer_for_device s.priv.is_moving,
       Call.clutter_set_motion_events_enabled true] ∧
    cursor_calls (mx_window_set_small_screen s small_screen w).2 =
      (if s.priv.is_resizing = true then [Call.XUndefineCursor] else []) := by
  have hm : s.priv.is_moving ≠ -1 := hs
  obtain ⟨h1, h2⟩ := small_screen_end_drag_of_active
    { s with priv := { s.priv with small_screen := small_screen } } hm
  have hmem : s.priv.is_moving ∉ ungrab_pointer s.pointer_grabs s.priv.is_moving := by
    simp [ungrab_pointer]
  unfold mx_window_set_small_screen
  rw [if_pos hd]
  simp only [hw, if_false, h1, h2]
  by_cases hr : s.priv.is_resizing = true <;>
    cases small_screen <;>
    cases hf : s.fullscreen <;>
    by_cases hl : s.priv.last_width = 0 ∧ s.priv.last_height = 0 <;>
    simp [hr, hf, hl, grab_calls, cursor_calls, hmem]

/-- Switching `resizing_window` to small-screen mode ends its session. -/
theorem small_screen_change_ends_session_witness :
    session_active resizing_window ∧ example_world.stage_window ≠ 0 ∧
    (mx_window_set_small_screen resizing_window true example_world).1.priv.is_moving = -1 ∧
    (mx_window_set_small_screen resizing_window true example_world).1.priv.is_resizing =
      false :=
  ⟨by decide, by decide,
   (small_screen_change_ends_session resizing_window true example_world
      (by decide) (by decide) (by decide)).1,
   (small_screen_change_ends_session resizing_window true example_world
      (by decide) (by decide) (by decide)).2.2.2.2.1⟩

/-! ## C14, C15 and C16: size negotiation -/

/-- The border added by `mx_window_get_size` is `frame_border`. -/
theorem has_border_eq_frame_border (s : State) :
    (if (s.priv.has_toolbar && !(s.priv.small_screen || s.fullscreen)) = true then (2 : ℚ)
      else 0) = frame_border s := by
  unfold frame_border
  cases s.priv.has_toolbar <;> cases s.priv.small_screen <;> cases s.fullscreen <;> simp

/-- The update `if (b > a) a = b` leaves the maximum of `a` and `b`. -/
theorem update_if_greater_eq_max (a b : ℚ) : (if b > a then b else a) = max a b := by
  split_ifs with h
  · exact (max_eq_right (le_of_lt h)).symm
  · exact (max_eq_left (not_lt.mp h)).symm

/-- The widths computed by `mx_window_get_size` in terms of the two slots, the
toolbar slot being the actor `priv->toolbar`, shown or hidden: they are
max (toolbar.minWidth, child.minWidth) + b and
max (toolbar.preferredWidth, child.preferredWidth) + b, an empty slot
contributing 0, with b = 2 when `has_toolbar` is set and the window is neither
small-screen nor fullscreen and b = 0 otherwise.  The toolbar's measurements
are taken to be non-negative when there is no child: the code then returns
them as they are. -/
theorem window_width_is_max_plus_border (s : State) (w : World)
    (hnn : s.priv.child = none → ∀ t, s.priv.toolbar = some t →
      0 ≤ (w.preferred_width t).1 ∧ 0 ≤ (w.preferred_width t).2) :
    (mx_window_get_size s w).width =
      max (slot_min_width w s.priv.toolbar) (slot_min_width w s.priv.child) +
        frame_border s ∧
    (mx_window_get_size s w).pref_width =
      max (slot_pref_width w s.priv.toolbar) (slot_pref_width w s.priv.child) +
        frame_border s := by
  have hb := has_border_eq_frame_border s
  cases ht : s.priv.toolbar with
  | none =>
      cases hc : s.priv.child with
      | none => simp [mx_window_get_size, ht, hc, slot_min_width, slot_pref_width, frame_border]
      | some c =>
          simp only [mx_window_get_size, ht, hc, slot_min_width, slot_pref_width, hb,
            update_if_greater_eq_max, and_self]
  | some t =>
      cases hc : s.priv.child with
      | none =>
          obtain ⟨h1, h2⟩ := hnn hc t ht
          simp only [mx_window_get_size, ht, hc, slot_min_width, slot_pref_width, hb,
            max_eq_left h1, max_eq_left h2, and_self]
      | some c =>
          simp only [mx_window_get_size, ht, hc, slot_min_width, slot_pref_width, hb,
            update_if_greater_eq_max, and_self]

/-- Scenario 1: toolbar (40, 60), child (100, 80) and the frame drawn give the
minimum width 102 and the preferred width 82. -/
theorem window_width_is_max_plus_border_witness :
    (mx_window_get_size scenario_window scenario_world).width = 102 ∧
    (mx_window_get_size scenario_window scenario_world).pref_width = 82 := by
  have h := window_width_is_max_plus_border scenario_window scenario_world
    (fun hc => absurd hc (by decide))
  have hb : frame_border scenario_window = 2 := by decide
  rw [hb] at h
  constructor
  · rw [h.1]
    norm_num [slot_min_width, scenario_window, scenario_world, fresh_window, mx_window_init]
  · rw [h.2]
    norm_num [slot_pref_width, scenario_window, scenario_world, fresh_window, mx_window_init]

/-- The heights computed by `mx_window_get_size` in terms of the two slots, the
toolbar slot being the actor `priv->toolbar`, shown or hidden: they are
toolbar.minHeight (w) + child.minHeight (w) + b and
toolbar.preferredHeight (w) + child.preferredHeight (w) + b, both slots being
asked at the same width w = max (toolbar.minWidth, child.minWidth), an empty
slot contributing 0 and b being 2 exactly when the frame is drawn; with both
slots empty the result is (b, b).  The toolbar's minimum width is taken to be
non-negative when there is no child: the code then asks the heights at that
width as it is. -/
theorem window_height_is_sum_plus_border (s : State) (w : World)
    (hnn : s.priv.child = none → ∀ t, s.priv.toolbar = some t →
      0 ≤ (w.preferred_width t).1) :
    (mx_window_get_size s w).height =
      slot_min_height w s.priv.toolbar
          (max (slot_min_width w s.priv.toolbar) (slot_min_width w s.priv.child)) +
        slot_min_height w s.priv.child
          (max (slot_min_width w s.priv.toolbar) (slot_min_width w s.priv.child)) +
        frame_border s ∧
    (mx_window_get_size s w).pref_height =
      slot_pref_height w s.priv.toolbar
          (max (slot_min_width w s.priv.toolbar) (slot_min_width w s.priv.child)) +
        slot_pref_height w s.priv.child
          (max (slot_min_width w s.priv.toolbar) (slot_min_width w s.priv.child)) +
        frame_border s ∧
    (s.priv.toolbar = none → s.priv.child = none →
      (mx_window_get_size s w).height = frame_border s ∧
      (mx_window_get_size s w).pref_height = frame_border s) := by
  by_cases hB : s.priv.has_toolbar = true ∧ s.priv.small_screen = false ∧ s.fullscreen = false
  all_goals
    cases ht : s.priv.toolbar with
    | none =>
        cases hc : s.priv.child with
        | none =>
            simp [mx_window_get_size, ht, hc, hB, frame_border, slot_min_width,
              slot_min_height, slot_pref_height]
        | some c =>
            simp [mx_window_get_size, ht, hc, hB, frame_border, slot_min_width,
              slot_min_height, slot_pref_height, update_if_greater_eq_max]
    | some t =>
        cases hc : s.priv.child with
        | none =>
            have h1 := hnn hc t ht
            simp [mx_window_get_size, ht, hc, hB, frame_border, slot_min_width,
              slot_min_height, slot_pref_height, max_eq_left h1]
        | some c =>
            simp [mx_window_get_size, ht, hc, hB, frame_border, slot_min_width,
              slot_min_height, slot_pref_height, update_if_greater_eq_max]

/-- With the toolbar (20, 30) high, the child (200, 300) high and the frame
drawn, the minimum height is 222 and the preferred height 332. -/
theorem window_height_is_sum_plus_border_witness :
    (mx_window_get_size scenario_window scenario_world).height = 222 ∧
    (mx_window_get_size scenario_window scenario_world).pref_height = 332 := by
  have h := window_height_is_sum_plus_border scenario_window scenario_world
    (fun hc => absurd hc (by decide))
  have hb : frame_border scenario_window = 2 := by decide
  rw [hb] at h
  constructor
  · rw [h.1]
    norm_num [slot_min_height, scenario_window, scenario_world, fresh_window, mx_window_init]
  · rw [h.2.1]
    norm_num [slot_pref_height, scenario_window, scenario_world, fresh_window, mx_window_init]

/-- C14 (defect in the code): a toolbar that is absent (`has_toolbar` FALSE)
still contributes its width.  After `mx_window_set_has_toolbar (FALSE)` the
toolbar actor is hidden, not removed, and `mx_window_get_size` tests the
pointer `priv->toolbar`, not `has_toolbar`: with the hidden toolbar measuring
(140, 160) and the child (100, 80) it returns the minimum width 140 and the
preferred width 160, where an absent toolbar contributing 0 gives 100 and
80 (b is 0). -/
theorem hidden_toolbar_width_still_counted :
    (mx_window_set_has_toolbar scenario_window false).1 = hidden_toolbar_window ∧
    hidden_toolbar_window.priv.has_toolbar = false ∧
    hidden_toolbar_window.priv.toolbar = some 0 ∧
    (mx_window_get_size hidden_toolbar_window wide_toolbar_world).width = 140 ∧
    (mx_window_get_size hidden_toolbar_window wide_toolbar_world).pref_width = 160 ∧
    max (slot_min_width wide_toolbar_world none)
        (slot_min_width wide_toolbar_world hidden_toolbar_window.priv.child) +
      frame_border hidden_toolbar_window = 100 ∧
    max (slot_pref_width wide_toolbar_world none)
        (slot_pref_width wide_toolbar_world hidden_toolbar_window.priv.child) +
      frame_border hidden_toolbar_window = 80 := by
  have hb : frame_border hidden_toolbar_window = 0 := by decide
  refine ⟨by decide, by decide, by decide, ?_, ?_, ?_, ?_⟩
  · norm_num [mx_window_get_size, hidden_toolbar_window, scenario_window, fresh_window,
      mx_window_init, wide_toolbar_world]
  · norm_num [mx_window_get_size, hidden_toolbar_window, scenario_window, fresh_window,
      mx_window_init, wide_toolbar_world]
  · rw [hb]
    norm_num [slot_min_width, hidden_toolbar_window, scenario_window, fresh_window,
      mx_window_init, wide_toolbar_world]
  · rw [hb]
    norm_num [slot_pref_width, hidden_toolbar_window, scenario_window, fresh_window,
      mx_window_init, wide_toolbar_world]

/-- C15 (defect in the code): a toolbar that is absent (`has_toolbar` FALSE)
still contributes its height.  With the hidden toolbar (20, 30) high and the
child (200, 300) high, `mx_window_get_size` returns the minimum height 220 and
the preferred height 330, where an absent toolbar contributing 0 gives 200 and
300 (b is 0); the heights are asked at the width 140 of the hidden toolbar,
not at the width 100 of the child. -/
theorem hidden_toolbar_height_still_counted :
    hidden_toolbar_window.priv.has_toolbar = false ∧
    hidden_toolbar_window.priv.toolbar = some 0 ∧
    (mx_window_get_size hidden_toolbar_window wide_toolbar_world).height = 220 ∧
    (mx_window_get_size hidden_toolbar_window wide_toolbar_world).pref_height = 330 ∧
    (mx_window_get_size hidden_toolbar_window wide_toolbar_world).width -
      frame_border hidden_toolbar_window = 140 ∧
    max (slot_min_width wide_toolbar_world none)
      (slot_min_width wide_toolbar_world hidden_toolbar_window.priv.child) = 100 ∧
    slot_min_height wide_toolbar_world none 100 +
        slot_min_height wide_toolbar_world hidden_toolbar_window.priv.child 100 +
      frame_border hidden_toolbar_window = 200 ∧
    slot_pref_height wide_toolbar_world none 100 +
        slot_pref_height wide_toolbar_world hidden_toolbar_window.priv.child 100 +
      frame_border hidden_toolbar_window = 300 := by
  have hb : frame_border hidden_toolbar_window = 0 := by decide
  refine ⟨by decide, by decide, ?_, ?_, ?_, ?_, ?_, ?_⟩
  · norm_num [mx_window_get_size, hidden_toolbar_window, scenario_window, fresh_window,
      mx_window_init, wide_toolbar_world]
  · norm_num [mx_window_get_size, hidden_toolbar_window, scenario_window, fresh_window,
      mx_window_init, wide_toolbar_world]
  · rw [hb]
    norm_num [mx_window_get_size, hidden_toolbar_window, scenario_window, fresh_window,
      mx_window_init, wide_toolbar_world]
  · norm_num [slot_min_width, hidden_toolbar_window, scenario_window, fresh_window,
      mx_window_init, wide_toolbar_world]
  · rw [hb]
    norm_num [slot_min_height, hidden_toolbar_window, scenario_window, fresh_window,
      mx_window_init, wide_toolbar_world]
  · rw [hb]
    norm_num [slot_pref_height, hidden_toolbar_window, scenario_window, fresh_window,
      mx_window_init, wide_toolbar_world]

/-- C16: `mx_window_get_size` is monotonic in the minimum width of the child:
for a fixed window state and toolbar measurement, if the child's minimum width
answered in `w` is at most the one answered in `w2`, the minimum width of the
window computed in `w` is at most the one computed in `w2`. -/
theorem min_width_monotone_in_child_min_width (s : State) (w w2 : World)
    (ht : ∀ t, s.priv.toolbar = some t →
      (w2.preferred_width t).1 = (w.preferred_width t).1)
    (hc : ∀ c, s.priv.child = some c → (w.preferred_width c).1 ≤ (w2.preferred_width c).1) :
    (mx_window_get_size s w).width ≤ (mx_window_get_size s w2).width := by
  cases htb : s.priv.toolbar with
  | none =>
      cases hch : s.priv.child with
      | none => simp [mx_window_get_size, htb, hch]
      | some c =>
          have h := hc c hch
          simp only [mx_window_get_size, htb, hch, update_if_greater_eq_max]
          exact add_le_add_right (max_le_max (le_refl _) h) _
  | some t =>
      cases hch : s.priv.child with
      | none =>
          have h := ht t htb
          simp only [mx_window_get_size, htb, hch, h]
          exact le_refl _
      | some c =>
          have h := hc c hch
          have h2 := ht t htb
          simp only [mx_window_get_size, htb, hch, update_if_greater_eq_max, h2]
          exact add_le_add_right (max_le_max (le_refl _) h) _

/-- Raising the child's minimum width from 100 to 150 does not lower the
minimum width of `scenario_window`. -/
theorem min_width_monotone_in_child_min_width_witness :
    (mx_window_get_size scenario_window scenario_world).width ≤
      (mx_window_get_size scenario_window
        { scenario_world with
          preferred_width := fun a => if a = 0 then (40, 60) else (150, 80) }).width :=
  min_width_monotone_in_child_min_width scenario_window scenario_world
    { scenario_world with preferred_width := fun a => if a = 0 then (40, 60) else (150, 80) }
    (fun t ht => by
      have h0 : t = 0 := by
        have : scenario_window.priv.toolbar = some 0 := rfl
        rw [this] at ht
        exact (Option.some.inj ht).symm
      rw [h0]
      rfl)
    (fun c hc => by
      have h1 : c = 1 := by
        have : scenario_window.priv.child = some 1 := rfl
        rw [this] at hc
        exact (Option.some.inj hc).symm
      rw [h1]
      norm_num [scenario_world])

/-! ## C17: a failing geometry query -/

/-- The press handler never looks at the status of the `XGetGeometry` reply. -/
theorem button_press_ignores_geometry_status (s : State) (event : ClutterButtonEvent)
    (w : World) (status : Bool) :
    mx_window_button_press_event s event
      { w with geometry := { w.geometry with status := status } } =
    mx_window_button_press_event s event w := rfl

/-- C17 (defect in the code): a press is not skipped when the geometry query
fails.  On a fresh window, with `XGetGeometry` failing and the variables of its
reply holding (7, 8, 9, 10), a press of button 1 by device 2 returns TRUE,
begins a session (`is_moving` = 2) whose window start fields are those
indeterminate values, disables motion dispatch and grabs the pointer. -/
theorem press_with_failed_geometry_query_begins_session :
    fresh_window.priv.is_moving = -1 ∧
    (mx_window_button_press_event fresh_window
      { x := 5, y := 5, modifier_state := 0, button := 1, device := 2 }
      { example_world with
        geometry := { status := false, x := 7, y := 8, width := 9, height := 10 } }).ret =
      true ∧
    (mx_window_button_press_event fresh_window
      { x := 5, y := 5, modifier_state := 0, button := 1, device := 2 }
      { example_world with
        geometry := { status := false, x := 7, y := 8, width := 9, height := 10 } }
      ).st.priv.is_moving = 2 ∧
    (mx_window_button_press_event fresh_window
      { x := 5, y := 5, modifier_state := 0, button := 1, device := 2 }
      { example_world with
        geometry := { status := false, x := 7, y := 8, width := 9, height := 10 } }
      ).st.priv.drag_win_x_start = 7 ∧
    (mx_window_button_press_event fresh_window
      { x := 5, y := 5, modifier_state := 0, button := 1, device := 2 }
      { example_world with
        geometry := { status := false, x := 7, y := 8, width := 9, height := 10 } }
      ).st.priv.drag_width_start = 9 ∧
    (mx_window_button_press_event fresh_window
      { x := 5, y := 5, modifier_state := 0, button := 1, device := 2 }
      { example_world with
        geometry := { status := false, x := 7, y := 8, width := 9, height := 10 } }
      ).st.pointer_grabs = [2] ∧
    (mx_window_button_press_event fresh_window
      { x := 5, y := 5, modifier_state := 0, button := 1, device := 2 }
      { example_world with
        geometry := { status := false, x := 7, y := 8, width := 9, height := 10 } }
      ).st.motion_events_enabled = false ∧
    (mx_window_button_press_event fresh_window
      { x := 5, y := 5, modifier_state := 0, button := 1, device := 2 }
      { example_world with
        geometry := { status := false, x := 7, y := 8, width := 9, height := 10 } }).calls =
      [Call.clutter_set_motion_events_enabled false,
       Call.clutter_grab_pointer_for_device 2] := by
  refine ⟨?_, ?_, ?_, ?_, ?_, ?_, ?_, ?_⟩ <;> decide

/-! ## C18: no grip hit-test outside normal mode or during a session -/

/-- C18: a motion event seen by `mx_window_captured_event` while the window has
no toolbar, or is small-screen, or is fullscreen, or has an active session,
does nothing: the hover branch is skipped, control falls through to the
button-press case, where `mx_window_button_press_event`, if it is called at
all, returns at one of its first two guards; the handler returns FALSE, makes
no call (no cursor call in particular) and leaves the state, `is_resizing` and
`is_moving` included, unchanged, whatever the value of `is_resizing`. -/
theorem captured_motion_ignored_outside_normal_mode (s : State)
    (mevent : ClutterMotionEvent) (w : World)
    (h : s.priv.has_toolbar = false ∨ s.priv.small_screen = true ∨ s.fullscreen = true ∨
      s.priv.is_moving ≠ -1) :
    mx_window_captured_event s (ClutterEvent.motion mevent) w =
      { ret := false, st := s, calls := [] } ∧
    cursor_calls (mx_window_captured_event s (ClutterEvent.motion mevent) w).calls = [] ∧
    (mx_window_captured_event s (ClutterEvent.motion mevent) w).st.priv.is_resizing =
      s.priv.is_resizing ∧
    (mx_window_captured_event s (ClutterEvent.motion mevent) w).st.priv.is_moving =
      s.priv.is_moving := by
  have hi : ¬ normal_mode s ∨ s.priv.is_moving ≠ -1 := by
    rcases h with h | h | h | h
    · left; intro hn; rw [hn.1] at h; exact Bool.noConfusion h
    · left; intro hn; rw [hn.2.1] at h; exact Bool.noConfusion h
    · left; intro hn; rw [hn.2.2] at h; exact Bool.noConfusion h
    · right; exact h
  have hc : ¬ (s.priv.is_moving = -1 ∧ s.priv.has_toolbar = true ∧
      s.priv.small_screen = false ∧ s.fullscreen = false) := by
    rintro ⟨hm, hn⟩
    rcases hi with hi | hi
    · exact hi hn
    · exact hi hm
  have hp : ¬ normal_mode s ∨ s.priv.is_moving ≠ -1 ∨
      ((ClutterEvent.motion mevent).button w).button ≠ 1 := by
    rcases hi with hi | hi
    · exact Or.inl hi
    · exact Or.inr (Or.inl hi)
  have he : mx_window_captured_event s (ClutterEvent.motion mevent) w =
      { ret := false, st := s, calls := [] } := by
    simp only [mx_window_captured_event]
    rw [if_neg hc]
    unfold captured_button_press
    split_ifs
    · exact button_press_ignored s _ w hp
    · rfl
  rw [he]
  exact ⟨rfl, rfl, rfl, rfl⟩

/-- A hover over the grip during the move of `moving_window` changes
nothing. -/
theorem captured_motion_ignored_outside_normal_mode_witness :
    moving_window.priv.is_moving ≠ -1 ∧
    mx_window_captured_event moving_window
      (ClutterEvent.motion { x := 95, y := 95, modifier_state := 256, device := 2 })
      example_world = { ret := false, st := moving_window, calls := [] } :=
  ⟨by decide,
   (captured_motion_ignored_outside_normal_mode moving_window
      { x := 95, y := 95, modifier_state := 256, device := 2 } example_world
      (Or.inr (Or.inr (Or.inr (by decide))))).1⟩

/-! ## C19: the single content child -/

/-- C19: after `mx_window_set_child (window, a)`, `mx_window_get_child` returns
`a` and nothing but the child field has changed.  When `a` is already the
child no call is made; otherwise the old child, if any, is unparented and
reported by one "actor-removed" signal, and after that the new child, if any,
is parented and reported by one "actor-added" signal. -/
theorem set_child_replaces_single_child (s : State) (actor : Option Nat) :
    mx_window_get_child (mx_window_set_child s actor).1 = actor ∧
    (mx_window_set_child s actor).1 = { s with priv := { s.priv with child := actor } } ∧
    (mx_window_set_child s actor).2 =
      (if s.priv.child = actor then []
       else
        (match s.priv.child with
          | some old_child =>
              [Call.clutter_actor_unparent old_child,
               Call.g_signal_emit_by_name "actor-removed" old_child]
          | none => []) ++
        (match actor with
          | some a =>
              [Call.clutter_actor_set_parent a,
               Call.g_signal_emit_by_name "actor-added" a]
          | none => [])) ∧
    (if s.priv.child = actor then (mx_window_set_child s actor).1 = s else True) := by
  unfold mx_window_set_child mx_window_get_child
  by_cases h : s.priv.child = actor
  · have h2 : ¬ (s.priv.child ≠ actor) := fun hn => hn h
    rw [if_neg h2, if_pos h, if_pos h]
    refine ⟨h, ?_, rfl, rfl⟩
    rw [← h]
  · have h2 : s.priv.child ≠ actor := h
    rw [if_pos h2, if_neg h, if_neg h]
    cases hc : s.priv.child with
    | none =>
        cases actor with
        | none => exact absurd hc h
        | some a => exact ⟨rfl, rfl, rfl, trivial⟩
    | some old_child =>
        cases actor with
        | none => exact ⟨rfl, rfl, rfl, trivial⟩
        | some a => exact ⟨rfl, rfl, rfl, trivial⟩

/-! ## C20: the gesture kind is fixed during a session -/

/-- C20: while a session is active, no event reaching a handler (button press,
button release, motion, or a captured event, hover or press) changes
`is_resizing`; in particular, if the session is still active after the event,
it is the same kind of gesture as before. -/
theorem gesture_kind_fixed_during_session (s : State) (i : Input)
    (hs : session_active s) (hi : i.is_event) :
    (step s i).priv.is_resizing = s.priv.is_resizing ∧
    (session_active (step s i) → (step s i).priv.is_resizing = s.priv.is_resizing) := by
  have hm : s.priv.is_moving ≠ -1 := hs
  have key : (step s i).priv.is_resizing = s.priv.is_resizing := by
    cases i with
    | button_press event w =>
        show (mx_window_button_press_event s event w).st.priv.is_resizing = _
        rw [button_press_ignored s event w (Or.inr (Or.inl hm))]
    | button_release event =>
        show (mx_window_button_release_event s event).st.priv.is_resizing = _
        unfold mx_window_button_release_event mx_window_button_release
        split_ifs <;> rfl
    | motion event w =>
        show (mx_window_motion_event s event w).st.priv.is_resizing = _
        unfold mx_window_motion_event mx_window_button_release
        split_ifs <;> rfl
    | captured event w =>
        show (mx_window_captured_event s event w).st.priv.is_resizing = _
        cases event with
        | motion mevent =>
            rw [(captured_motion_ignored_outside_normal_mode s mevent w
              (Or.inr (Or.inr (Or.inr hm)))).1]
        | button_press bevent =>
            rw [captured_button_press_event]
            split_ifs
            · rw [button_press_ignored s bevent w (Or.inr (Or.inl hm))]
            · rfl
        | button_release bevent => rfl
        | other => rfl
    | set_small_screen small_screen w => exact absurd hi (by simp [Input.is_event])
    | set_has_toolbar toolbar => exact absurd hi (by simp [Input.is_event])
    | fullscreen_changed fullscreen => exact absurd hi (by simp [Input.is_event])
  exact ⟨key, fun _ => key⟩

/-- A motion event with button 1 held during the resize of `resizing_window`
leaves the session active and a resize. -/
theorem gesture_kind_fixed_during_session_witness :
    session_active resizing_window ∧
    (step resizing_window
      (Input.motion { x := 50, y := 50, modifier_state := 256, device := 2 } example_world)
      ).priv.is_resizing = resizing_window.priv.is_resizing :=
  ⟨by decide,
   (gesture_kind_fixed_during_session resizing_window
      (Input.motion { x := 50, y := 50, modifier_state := 256, device := 2 } example_world)
      (by decide) trivial).1⟩

/-! ## C21: the screen-size lookup -/

/-- The element read at the subscript `res->nmode` is the one past the end of
the array of modes. -/
theorem modes_at_screen_size_index (res : XRRScreenResources) :
    ¬ (screen_size_index res < res.nmode) ∧
    res.modes_at (screen_size_index res) = res.past_the_end := by
  refine ⟨lt_irrefl _, ?_⟩
  unfold XRRScreenResources.modes_at screen_size_index XRRScreenResources.nmode
  simp [List.getD]

/-- C21 (defect in the code): the subscript with which the screen size is read
is `nmode`, one past the last valid index.  For screen resources with the
single mode 1024x768, followed in memory by what reads as 30x40, the subscript
is 1, which is not below `nmode` = 1, and the size read is 30x40: the resize
of `resizing_window` (window at (10, 20)) is capped to (20, 20),
`mx_window_set_small_screen` sizes the window to 30x40 and so does the first
allocation in small-screen mode. -/
theorem screen_size_read_past_the_end :
    1 ≤ one_mode_screen.nmode ∧
    screen_size_index one_mode_screen = 1 ∧
    ¬ (screen_size_index one_mode_screen < one_mode_screen.nmode) ∧
    one_mode_screen.modes_at (screen_size_index one_mode_screen) =
      { width := 30, height := 40 } ∧
    requested_size
      (mx_window_motion_event resizing_window
        { x := 50, y := 50, modifier_state := 256, device := 2 }
        { example_world with screen := one_mode_screen }).calls = some (20, 20) ∧
    requested_size
      (mx_window_set_small_screen fresh_window true
        { example_world with screen := one_mode_screen }).2 = some (30, 40) ∧
    requested_size
      (mx_window_allocate small_screen_window { x1 := 0, y1 := 0, x2 := 100, y2 := 100 }
        { example_world with screen := one_mode_screen }).2 = some (30, 40) := by
  have hw : (mx_window_get_size resizing_window
      { example_world with screen := one_mode_screen }).width = 52 := by
    norm_num [mx_window_get_size, resizing_window, moving_window, fresh_window,
      mx_window_init, example_world]
  have hh : (mx_window_get_size resizing_window
      { example_world with screen := one_mode_screen }).height = 22 := by
    norm_num [mx_window_get_size, resizing_window, moving_window, fresh_window,
      mx_window_init, example_world]
  have h100 : gfloat_to_gint 100 = 100 := by decide
  refine ⟨by decide, by decide, by decide, by decide, ?_, ?_, ?_⟩
  · rw [motion_resize_requested_size _ _ _ (by decide) rfl (by decide) rfl rfl, hw, hh]
    have h1 : guint_add_gint resizing_window.priv.drag_width_start
        (({ example_world with screen := one_mode_screen } : World).pointer_x -
          resizing_window.priv.drag_x_start) = 100 := by decide
    have h2 : guint_add_gint resizing_window.priv.drag_height_start
        (({ example_world with screen := one_mode_screen } : World).pointer_y -
          resizing_window.priv.drag_y_start) = 100 := by decide
    rw [h1, h2]
    norm_num [MAX, MIN, h100, guint_to_gfloat_of_le, gint_to_gfloat_of_small,
      XRRScreenResources.modes_at, XRRScreenResources.nmode,
      one_mode_screen, resizing_window, moving_window, fresh_window, mx_window_init]
  · norm_num [requested_size, mx_window_set_small_screen, small_screen_end_drag,
      XRRScreenResources.modes_at, XRRScreenResources.nmode, one_mode_screen, fresh_window,
      mx_window_init, example_world]
  · norm_num [requested_size, mx_window_allocate, allocate_window_size, slot_pref_height,
      XRRScreenResources.modes_at, XRRScreenResources.nmode, one_mode_screen,
      small_screen_window, fresh_window, mx_window_init, example_world]

/-! ## C22: the container add -/

/-- After `mx_window_set_child` the child is the actor given. -/
theorem child_after_set_child (s : State) (actor : Option Nat) :
    (mx_window_set_child s actor).1.priv.child = actor := by
  unfold mx_window_set_child
  by_cases h : s.priv.child = actor
  · have h2 : ¬ (s.priv.child ≠ actor) := fun hn => hn h
    rw [if_neg h2]
    exact h
  · have h2 : s.priv.child ≠ actor := h
    rw [if_pos h2]
    cases hc : s.priv.child <;> cases actor <;> first | rfl | exact absurd hc h

/-- What `mx_window_add` stores: a draggable, or a clone whose source is a
draggable, is parented and becomes the draggable; an actor that is neither a
clone nor a draggable is handed to `mx_window_set_child` and becomes the
content child. -/
theorem add_holds_actor_unless_clone_of_other (s : State) (actor : Nat) (types : ActorTypes)
    (h : types.is_clone actor = false ∨
      types.is_draggable (types.clone_source actor) = true) :
    held_by_window (mx_window_add s actor types).1 actor ∧
    (mx_window_add s actor types =
      if (types.is_clone actor = true ∧ types.is_draggable (types.clone_source actor) = true) ∨
          (types.is_clone actor = false ∧ types.is_draggable actor = true) then
        ({ s with priv := { s.priv with draggable := some actor } },
         [Call.clutter_actor_set_parent actor])
      else mx_window_set_child s (some actor)) := by
  unfold mx_window_add
  by_cases hc : types.is_clone actor = true
  · have hsrc : types.is_draggable (types.clone_source actor) = true := by
      rcases h with h | h
      · rw [hc] at h; exact absurd h (by decide)
      · exact h
    simp only [hc, hsrc, if_true, true_and, true_or]
    exact ⟨Or.inr rfl, trivial⟩
  · have hc2 : types.is_clone actor = false := by simpa using hc
    by_cases hd : types.is_draggable actor = true
    · simp only [hc2, hd, if_true]
      exact ⟨Or.inr rfl, by simp⟩
    · simp only [hc2, hd]
      refine ⟨?_, by simp⟩
      left
      have := (child_after_set_child s (some actor))
      simpa using this

/-- C22 (defect in the code): `mx_window_add` does not store a clone whose
source is not a draggable.  Adding actor 5, a clone of the plain actor 6, to a
fresh window makes no call and leaves the window as it was: the actor is
neither the content child nor the draggable.  A clone of a draggable (actor 7)
becomes the draggable and a plain actor (actor 1) the content child. -/
theorem add_drops_clone_of_plain_actor :
    example_types.is_clone 5 = true ∧
    example_types.is_draggable (example_types.clone_source 5) = false ∧
    mx_window_add fresh_window 5 example_types = (fresh_window, []) ∧
    ¬ held_by_window (mx_window_add fresh_window 5 example_types).1 5 ∧
    (mx_window_add fresh_window 7 example_types).1.priv.draggable = some 7 ∧
    (mx_window_add fresh_window 1 example_types).1.priv.child = some 1 := by
  refine ⟨by decide, by decide, ?_, by decide, by decide, by decide⟩
  rfl

end MxWindow
